import Mathlib

/-!
# Itinerary builder API: validation, in-memory store and PDF assembly

A shallow embedding of the Go packages `models`, `repository`, `service` and of the
status selection of `controllers`.

* `float64` is modelled exactly: a finite value is a sign and a magnitude counted in
  units of `2^-1074` (the smallest subnormal), so every finite double is one `F64.fin`
  value; arithmetic computes the exact result and rounds it to nearest, ties to even.
* `time.Time` is the instant it denotes, in nanoseconds; `time.Duration` is an `Int`
  kept inside the `int64` range by saturation, as `Time.Sub` does.
* Go `error` values keep their identity: an error made by `errors.New` at package level
  is a different value from one made by a call of `errors.New` with the same text.
* Pointers to itineraries are addresses into an explicit heap, so that a write through a
  pointer obtained from the store is visible in the store.
* The PDF canvas (`gofpdf.Fpdf`) is the list of the method calls issued on it.
* `PDFService` takes `time.Time.Format` and `filepath.Join` as parameters; `goFormat` and
  `filepathJoin` are what the standard library computes for them, for times in a zone
  with a fixed offset and for Unix paths.
-/

namespace ItineraryApi

/-! ## float64 -/

/-- One step of the binary search for the highest set bit: when the number has a bit at
position `p` or above, drop its low `p` bits and count them. -/
def ilog2Step (st : Nat × Nat) (p : Nat) : Nat × Nat :=
  if 1 <<< p ≤ st.1 then (st.1 >>> p, st.2 + p) else st

/-- Floor of the base-two logarithm of `n`, for `0 < n < 2 ^ 4096`: a binary search over
the bit positions. -/
def ilog2 (n : Nat) : Nat :=
  ([2048, 1024, 512, 256, 128, 64, 32, 16, 8, 4, 2, 1].foldl ilog2Step (n, 0)).2

/-- The integer nearest to `p / q`, ties going to the even one. -/
def roundHalfEven (p q : Nat) : Nat :=
  let t := p / q
  let r := p % q
  if q < 2 * r ∨ (2 * r = q ∧ t % 2 = 1) then t + 1 else t

/-- The magnitude `p / q` (in units of `2^-1074`) rounded to the nearest magnitude with at
most 53 significant bits, ties to even. Below `2^53` units the spacing of doubles is one
unit (subnormals and the first binade), above it the spacing is `2^s` units with
`s = ⌊log₂ (p / q)⌋ - 52`. -/
def roundRat (p q : Nat) : Nat :=
  let t := p / q
  let s := if t < 1 <<< 53 then 0 else ilog2 t - 52
  roundHalfEven p (q <<< s) <<< s

/-- A float64 value. `fin neg mag` is `(-1)^neg * mag * 2^-1074`; `fin true 0` is `-0`. -/
inductive F64 where
  | fin (neg : Bool) (mag : Nat)
  | inf (neg : Bool)
  | nan
deriving DecidableEq, Repr

namespace F64

/-- The magnitude of `1.0`, in units of `2^-1074`. -/
def one : Nat := 1 <<< 1074

/-- The first magnitude that is too large for a finite double: `2^1024` in units. -/
def overflowMag : Nat := 1 <<< 2098

/-- The double nearest to `± p / q` units: rounding, then overflow to infinity. -/
def pack (neg : Bool) (p q : Nat) : F64 :=
  let m := roundRat p q
  if m < overflowMag then fin neg m else inf neg

/-- The double nearest to the decimal `± p / q`, as a Go constant or a JSON number is
converted. -/
def ofDecimal (neg : Bool) (p q : Nat) : F64 := pack neg (p * one) q

/-- Conversion `float64(i)` of an integer. -/
def ofInt (i : Int) : F64 := pack (decide (i < 0)) (i.natAbs * one) 1

/-- Positive zero, the value of an uninitialised `float64` and of the constant `0`. -/
def zero : F64 := fin false 0

/-- The signed number of units of a finite value. -/
def signed (neg : Bool) (mag : Nat) : Int := if neg then -(mag : Int) else (mag : Int)

/-- A key that orders all values other than NaN: the signed magnitude, with the
infinities beyond every finite double. -/
def key : F64 → Int
  | fin neg mag => signed neg mag
  | inf neg => signed neg overflowMag
  | nan => 0

def isNaN : F64 → Bool
  | nan => true
  | _ => false

def isFinite : F64 → Bool
  | fin _ _ => true
  | _ => false

/-- Go `x < y`: false when either operand is NaN; `-0` and `+0` are equal. -/
def lt (x y : F64) : Bool := !x.isNaN && !y.isNaN && decide (x.key < y.key)

/-- Go `x <= y`. -/
def le (x y : F64) : Bool := !x.isNaN && !y.isNaN && decide (x.key ≤ y.key)

/-- Go `x > y`. -/
def gt (x y : F64) : Bool := lt y x

/-- Go unary minus. -/
def neg : F64 → F64
  | fin s m => fin (!s) m
  | inf s => inf (!s)
  | nan => nan

/-- Go `x + y` on float64: the exact sum rounded to nearest even. An exact zero sum is `+0`
unless both operands are negative (zeros). -/
def add : F64 → F64 → F64
  | nan, _ => nan
  | _, nan => nan
  | inf a, inf b => if a = b then inf a else nan
  | inf a, fin _ _ => inf a
  | fin _ _, inf b => inf b
  | fin a m, fin b n =>
    let z : Int := signed a m + signed b n
    if z = 0 then fin (a && b) 0 else pack (decide (z < 0)) z.natAbs 1

/-- Go `x - y` on float64. -/
def sub (x y : F64) : F64 := add x (neg y)

/-- Go `x / y` on float64. -/
def div : F64 → F64 → F64
  | nan, _ => nan
  | _, nan => nan
  | inf _, inf _ => nan
  | inf a, fin b _ => inf (xor a b)
  | fin a _, inf b => fin (xor a b) 0
  | fin a m, fin b n =>
    if n = 0 then (if m = 0 then nan else inf (xor a b))
    else pack (xor a b) (m * one) n

/-- Go `int(f)` on amd64: the fraction is discarded; NaN and values outside the `int64`
range give the smallest `int64`. -/
def trunc : F64 → Int
  | fin s m => if m / one < 9223372036854775808 then signed s (m / one) else -9223372036854775808
  | _ => -9223372036854775808

def pad2 (n : Nat) : String := if n < 10 then "0" ++ toString n else toString n

/-- The verb `%.2f`: the exact value rounded to hundredths, ties to even. -/
def fmt2 : F64 → String
  | nan => "NaN"
  | inf false => "+Inf"
  | inf true => "-Inf"
  | fin s m =>
    let c := roundHalfEven (m * 100) one
    (if s then "-" else "") ++ toString (c / 100) ++ "." ++ pad2 (c % 100)

end F64

/-! ## time -/

/-- A `time.Time`, as the instant it denotes: nanoseconds since the Unix epoch. -/
structure Time where
  unixNano : Int
deriving DecidableEq, Repr

def maxDuration : Int := 9223372036854775807

def minDuration : Int := -9223372036854775808

/-- One hour as a `time.Duration` (nanoseconds). -/
def Hour : Int := 60 * 60 * 1000000000

namespace Time

/-- `t.Before(u)`. -/
def Before (t u : Time) : Bool := decide (t.unixNano < u.unixNano)

/-- `t.Equal(u)`. -/
def Equal (t u : Time) : Bool := decide (t.unixNano = u.unixNano)

/-- `t.Sub(u)`: the duration `t - u`, saturated to the range of `int64`. -/
def Sub (t u : Time) : Int :=
  let d := t.unixNano - u.unixNano
  if maxDuration < d then maxDuration else if d < minDuration then minDuration else d

end Time

/-- `d.Hours()` of package `time`: the whole hours plus the remainder divided by an hour,
both in float64. -/
def Duration.Hours (d : Int) : F64 :=
  let hour := Int.tdiv d Hour
  let nsec := Int.tmod d Hour
  F64.add (F64.ofInt hour) (F64.div (F64.ofInt nsec) (F64.ofInt (60 * 60 * 1000000000)))

/-! ## errors -/

/-- Where an `*errors.errorString` was allocated: once, by the initialiser of a
package-level variable, or by a call of `errors.New` or `fmt.Errorf` inside a function. -/
inductive ErrAlloc where
  | pkgVar (name : String)
  | call (func : String)
deriving DecidableEq, Repr

/-- A Go `error`: an `errorString` or a `fmt.wrapError` made by the verb `%w`. Two values
are the same Go value only if they are equal here. -/
inductive GoError where
  | errorString (at_ : ErrAlloc) (s : String)
  | wrapError (msg : String) (err : GoError)
deriving DecidableEq, Repr

namespace GoError

/-- The method `Error()`. -/
def Error : GoError → String
  | errorString _ s => s
  | wrapError msg _ => msg

/-- The call `errors.Is(err, target)`: `err` or an error it wraps is `target`. -/
def Is : GoError → GoError → Bool
  | errorString a s, target => decide (errorString a s = target)
  | wrapError msg err, target => decide (wrapError msg err = target) || Is err target

end GoError

/-- `errors.New(s)`, or `fmt.Errorf(s)` without `%w`, called inside function `func`. -/
def errorsNew (func s : String) : GoError := .errorString (.call func) s

/-- `fmt.Errorf(prefix + "%w" + suffix, err)`. -/
def errorfWrap (pre : String) (err : GoError) (suf : String) : GoError :=
  .wrapError (pre ++ err.Error ++ suf) err

/-- `service.ErrInvalidDateRange`. -/
def ErrInvalidDateRange : GoError :=
  .errorString (.pkgVar "service.ErrInvalidDateRange") "end date must be after start date"

/-- `service.ErrInvalidDays`. -/
def ErrInvalidDays : GoError :=
  .errorString (.pkgVar "service.ErrInvalidDays") "number of days doesn't match date range"

/-- `repository.ErrNotFound`. -/
def ErrNotFound : GoError :=
  .errorString (.pkgVar "repository.ErrNotFound") "itinerary not found"

/-! ## models -/

structure Activity where
  Name : String
  Description : String
  Location : String
  Duration : String
deriving DecidableEq, Repr

structure Activities where
  Morning : List Activity
  Afternoon : List Activity
  Evening : List Activity
deriving DecidableEq, Repr

structure Day where
  DayNumber : Int
  Date : Time
  Title : String
  Activities : Activities
deriving DecidableEq, Repr

structure Hotel where
  Name : String
  City : String
  CheckInDate : Time
  CheckOutDate : Time
  Nights : Int
  Address : String
deriving DecidableEq, Repr

structure Flight where
  FlightNumber : String
  Airline : String
  From : String
  To : String
  Departure : Time
  Arrival : Time
deriving DecidableEq, Repr

structure Transfer where
  From : String
  To : String
  Mode : String
  Timing : Time
deriving DecidableEq, Repr

structure Installment where
  InstallmentNumber : Int
  Amount : F64
  DueDate : Time
  Status : String
deriving DecidableEq, Repr

structure PaymentPlan where
  AmountDue : F64
  DueDate : Time
  Installments : List Installment
deriving DecidableEq, Repr

/-- The struct `models.Itinerary`. A slice field is the list of its elements: the code
only takes `len` of these slices and ranges over them, so a nil slice is the empty list. -/
structure Itinerary where
  ID : String
  UserID : String
  Title : String
  Destination : String
  StartDate : Time
  EndDate : Time
  Days : List Day
  Hotels : List Hotel
  Flights : List Flight
  Transfers : List Transfer
  PaymentPlan : PaymentPlan
  Inclusions : List String
  Exclusions : List String
  CreatedAt : Time
  UpdatedAt : Time
deriving DecidableEq, Repr

structure CreateItineraryReq where
  UserID : String
  Title : String
  Destination : String
  StartDate : Time
  EndDate : Time
  Days : List Day
  Hotels : List Hotel
  Flights : List Flight
  Transfers : List Transfer
  PaymentPlan : PaymentPlan
  Inclusions : List String
  Exclusions : List String
deriving DecidableEq, Repr

/-- The struct `models.UpdateItineraryReq`: every field is a pointer or a slice, and `none`
is the nil pointer or nil slice of a field the request omits. -/
structure UpdateItineraryReq where
  Title : Option String
  Destination : Option String
  StartDate : Option Time
  EndDate : Option Time
  Days : Option (List Day)
  Hotels : Option (List Hotel)
  Flights : Option (List Flight)
  Transfers : Option (List Transfer)
  PaymentPlan : Option PaymentPlan
  Inclusions : Option (List String)
  Exclusions : Option (List String)
deriving DecidableEq, Repr

deriving instance DecidableEq for Except

/-! ## repository -/

/-- The program state the services act on: the heap cells holding itineraries, the next
free address, and the map of `InMemoryRepo` from IDs to `*models.Itinerary`. -/
structure World where
  heap : Nat → Itinerary
  next : Nat
  itineraries : String → Option Nat

namespace World

/-- The itinerary the store holds under `id`: the target of the pointer in the map. -/
def stored (w : World) (id : String) : Option Itinerary :=
  (w.itineraries id).map w.heap

/-- An assignment through the pointer `p`. -/
def write (w : World) (p : Nat) (f : Itinerary → Itinerary) : World :=
  { w with heap := fun q => if q = p then f (w.heap p) else w.heap q }

/-- The statement `r.itineraries[id] = p`. -/
def setKey (w : World) (id : String) (p : Nat) : World :=
  { w with itineraries := fun k => if k = id then some p else w.itineraries k }

/-- The statement `delete(r.itineraries, id)`. -/
def deleteKey (w : World) (id : String) : World :=
  { w with itineraries := fun k => if k = id then none else w.itineraries k }

end World

namespace InMemoryRepo

/-- `(*InMemoryRepo).Create`. -/
def Create (w : World) (itinerary : Nat) : Option GoError × World :=
  if (w.itineraries (w.heap itinerary).ID).isSome then
    (some (errorsNew "repository.Create" "itinerary already exists"), w)
  else
    (none, w.setKey (w.heap itinerary).ID itinerary)

/-- `(*InMemoryRepo).GetByID`. -/
def GetByID (w : World) (id : String) : Except GoError Nat :=
  match w.itineraries id with
  | none => .error (errorsNew "repository.GetByID" "itinerary not found")
  | some itinerary => .ok itinerary

/-- `(*InMemoryRepo).Update`. -/
def Update (w : World) (id : String) (itinerary : Nat) : Option GoError × World :=
  if (w.itineraries id).isNone then
    (some (errorsNew "repository.Update" "itinerary not found"), w)
  else
    (none, w.setKey id itinerary)

/-- `(*InMemoryRepo).Delete`. -/
def Delete (w : World) (id : String) : Option GoError × World :=
  if (w.itineraries id).isNone then
    (some (errorsNew "repository.Delete" "itinerary not found"), w)
  else
    (none, w.deleteKey id)

end InMemoryRepo

/-! ## service: itineraries -/

namespace ItineraryService

/-- The local `duration` of `validateDays` (and of `addTitlePage`):
`int(endDate.Sub(startDate).Hours()/24) + 1`. -/
def duration (startDate endDate : Time) : Int :=
  F64.trunc (F64.div (Duration.Hours (endDate.Sub startDate)) (F64.ofInt 24)) + 1

/-- `(*ItineraryService).validateDays`. -/
def validateDays (days : List Day) (startDate endDate : Time) : Option GoError :=
  let duration := duration startDate endDate
  if (days.length : Int) ≠ duration then
    some (errorfWrap "" ErrInvalidDays
      (": expected " ++ toString duration ++ " days, got " ++ toString days.length))
  else
    none

/-- The loop of `validatePaymentPlan` that adds up the installments, from `sum = 0`. -/
def sumInstallments (installments : List Installment) : F64 :=
  installments.foldl (fun sum inst => F64.add sum inst.Amount) F64.zero

/-- `(*ItineraryService).validatePaymentPlan`. -/
def validatePaymentPlan (plan : PaymentPlan) : Option GoError :=
  if F64.le plan.AmountDue F64.zero then
    some (errorsNew "service.validatePaymentPlan" "total amount must be positive")
  else if plan.Installments.length = 0 then
    some (errorsNew "service.validatePaymentPlan" "at least one installment is required")
  else
    let sum := sumInstallments plan.Installments
    if F64.lt sum (F64.sub plan.AmountDue (F64.ofDecimal false 1 100))
        || F64.gt sum (F64.add plan.AmountDue (F64.ofDecimal false 1 100)) then
      some (errorsNew "service.validatePaymentPlan"
        ("installment amounts (" ++ F64.fmt2 sum ++ ") don't match total amount ("
          ++ F64.fmt2 plan.AmountDue ++ ")"))
    else
      none

/-- `(*ItineraryService).CreateItinerary`. `now` is the result of `time.Now()` and `newID`
that of `uuid.New().String()`. The result is the pointer to the new itinerary, or the
error returned with a nil pointer. -/
def CreateItinerary (w : World) (now : Time) (newID : String) (req : CreateItineraryReq) :
    Except GoError Nat × World :=
  if req.EndDate.Before req.StartDate || req.EndDate.Equal req.StartDate then
    (.error ErrInvalidDateRange, w)
  else
    match validateDays req.Days req.StartDate req.EndDate with
    | some err => (.error err, w)
    | none =>
      match validatePaymentPlan req.PaymentPlan with
      | some err => (.error err, w)
      | none =>
        let itinerary := w.next
        let w1 : World :=
          { w with
            next := w.next + 1
            heap := fun q => if q = itinerary then
              { ID := newID
                UserID := req.UserID
                Title := req.Title
                Destination := req.Destination
                StartDate := req.StartDate
                EndDate := req.EndDate
                Days := req.Days
                Hotels := req.Hotels
                Flights := req.Flights
                Transfers := req.Transfers
                PaymentPlan := req.PaymentPlan
                Inclusions := req.Inclusions
                Exclusions := req.Exclusions
                CreatedAt := now
                UpdatedAt := now }
              else w.heap q }
        match InMemoryRepo.Create w1 itinerary with
        | (some err, w2) => (.error (errorfWrap "failed to create itinerary: " err ""), w2)
        | (none, w2) => (.ok itinerary, w2)

/-- `(*ItineraryService).GetItinerary`. -/
def GetItinerary (w : World) (id : String) : Except GoError Nat :=
  match InMemoryRepo.GetByID w id with
  | .error err =>
    if err.Is ErrNotFound then
      .error (errorsNew "service.GetItinerary" "itinerary not found")
    else
      .error (errorfWrap "failed to get itinerary: " err "")
  | .ok itinerary => .ok itinerary

/-- One guarded assignment of `UpdateItinerary`, `if req.F != nil { existing.F = ... }`:
a write through the pointer `existing` when the request supplies the field. -/
def assign {α : Type} (w : World) (existing : Nat) (field : Option α)
    (set : α → Itinerary → Itinerary) : World :=
  match field with
  | some v => w.write existing (set v)
  | none => w

/-- The field assignments of `UpdateItinerary`, in source order, each a write through the
pointer `existing`, ending with `existing.UpdatedAt = time.Now()`. -/
def applyUpdate (w : World) (existing : Nat) (now : Time) (req : UpdateItineraryReq) : World :=
  let w := assign w existing req.Title (fun v it => { it with Title := v })
  let w := assign w existing req.Destination (fun v it => { it with Destination := v })
  let w := assign w existing req.StartDate (fun v it => { it with StartDate := v })
  let w := assign w existing req.EndDate (fun v it => { it with EndDate := v })
  let w := assign w existing req.Days (fun v it => { it with Days := v })
  let w := assign w existing req.Hotels (fun v it => { it with Hotels := v })
  let w := assign w existing req.Flights (fun v it => { it with Flights := v })
  let w := assign w existing req.Transfers (fun v it => { it with Transfers := v })
  let w := assign w existing req.PaymentPlan (fun v it => { it with PaymentPlan := v })
  let w := assign w existing req.Inclusions (fun v it => { it with Inclusions := v })
  let w := assign w existing req.Exclusions (fun v it => { it with Exclusions := v })
  w.write existing (fun it => { it with UpdatedAt := now })

/-- `(*ItineraryService).UpdateItinerary`. `now` is the result of `time.Now()`. -/
def UpdateItinerary (w : World) (now : Time) (id : String) (req : UpdateItineraryReq) :
    Except GoError Nat × World :=
  match InMemoryRepo.GetByID w id with
  | .error err =>
    if err.Is ErrNotFound then
      (.error (errorsNew "service.UpdateItinerary" "itinerary not found"), w)
    else
      (.error (errorfWrap "failed to get itinerary: " err ""), w)
  | .ok existing =>
    let w1 := applyUpdate w existing now req
    if (w1.heap existing).EndDate.Before (w1.heap existing).StartDate
        || (w1.heap existing).EndDate.Equal (w1.heap existing).StartDate then
      (.error ErrInvalidDateRange, w1)
    else
      match validatePaymentPlan (w1.heap existing).PaymentPlan with
      | some err => (.error err, w1)
      | none =>
        match InMemoryRepo.Update w1 id existing with
        | (some err, w2) => (.error (errorfWrap "failed to update itinerary: " err ""), w2)
        | (none, w2) => (.ok existing, w2)

/-- `(*ItineraryService).DeleteItinerary`. -/
def DeleteItinerary (w : World) (id : String) : Option GoError × World :=
  match InMemoryRepo.Delete w id with
  | (some err, w1) =>
    if err.Is ErrNotFound then
      (some (errorsNew "service.DeleteItinerary" "itinerary not found"), w1)
    else
      (some (errorfWrap "failed to delete itinerary: " err ""), w1)
  | (none, w1) => (none, w1)

end ItineraryService

/-! ## controllers: the status chosen for a service error -/

namespace RouteController

/-- The status `UpdateItinerary` answers with when the service returns `err`. -/
def updateErrorStatus (err : GoError) : Nat :=
  if err.Error = "itinerary not found" then 404 else 400

/-- The status `DeleteItinerary` answers with when the service returns `err`. -/
def deleteErrorStatus (err : GoError) : Nat :=
  if err.Error = "itinerary not found" then 404 else 500

end RouteController

/-! ## service: PDF assembly -/

/-- A method call on the canvas `*gofpdf.Fpdf`, with its arguments. -/
inductive PdfCall where
  | SetAutoPageBreak (auto : Bool) (margin : Nat)
  | AddPage
  | SetFont (familyStr styleStr : String) (size : Nat)
  | SetTextColor (r g b : Nat)
  | CellFormat (w h : Nat) (txtStr borderStr : String) (ln : Nat) (alignStr : String)
      (fill : Bool) (link : Nat) (linkStr : String)
  | Ln (h : Nat)
  | MultiCell (w h : Nat) (txtStr borderStr alignStr : String) (fill : Bool)
  | SetLeftMargin (margin : Nat)
  | OutputFileAndClose (fileStr : String)
deriving DecidableEq, Repr

/-- The canvas: the calls issued on it so far, oldest first. -/
abbrev Fpdf := List PdfCall

/-- Issue one call on the canvas. -/
def Fpdf.call (pdf : Fpdf) (c : PdfCall) : Fpdf := pdf ++ [c]

/-- What `PDFService` takes from outside the repository: its configured directory, the
method `time.Time.Format` and the function `filepath.Join`. -/
structure PDFService where
  outputDir : String
  Format : Time → String → String
  Join : String → String → String

namespace PDFService

/-- `(*PDFService).addSectionTitle`. -/
def addSectionTitle (pdf : Fpdf) (title : String) : Fpdf :=
  let pdf := pdf.call (.SetFont "Arial" "B" 16)
  let pdf := pdf.call (.SetTextColor 25 25 112)
  let pdf := pdf.call (.CellFormat 0 12 title "" 1 "L" false 0 "")
  pdf.call (.Ln 3)

/-- `(*PDFService).addTitlePage`. -/
def addTitlePage (s : PDFService) (pdf : Fpdf) (itinerary : Itinerary) : Fpdf :=
  let pdf := pdf.call (.SetFont "Arial" "B" 28)
  let pdf := pdf.call (.SetTextColor 25 25 112)
  let pdf := pdf.call (.CellFormat 0 20 itinerary.Title "" 1 "C" false 0 "")
  let pdf := pdf.call (.Ln 10)
  let pdf := pdf.call (.SetFont "Arial" "I" 18)
  let pdf := pdf.call (.SetTextColor 70 130 180)
  let pdf := pdf.call (.CellFormat 0 10 itinerary.Destination "" 1 "C" false 0 "")
  let pdf := pdf.call (.Ln 20)
  let pdf := pdf.call (.SetFont "Arial" "" 14)
  let pdf := pdf.call (.SetTextColor 0 0 0)
  let dateStr := s.Format itinerary.StartDate "January 2, 2006" ++ " to "
    ++ s.Format itinerary.EndDate "January 2, 2006"
  let pdf := pdf.call (.CellFormat 0 10 dateStr "" 1 "C" false 0 "")
  let pdf := pdf.call (.Ln 10)
  let pdf := pdf.call (.SetFont "Arial" "" 12)
  let pdf := pdf.call (.SetTextColor 100 100 100)
  let pdf := pdf.call (.CellFormat 0 8 ("Itinerary ID: " ++ itinerary.ID) "" 1 "C" false 0 "")
  let pdf := pdf.call (.CellFormat 0 8 ("User ID: " ++ itinerary.UserID) "" 1 "C" false 0 "")
  let pdf := pdf.call (.Ln 20)
  let duration := ItineraryService.duration itinerary.StartDate itinerary.EndDate
  let pdf := pdf.call (.SetFont "Arial" "B" 16)
  let pdf := pdf.call (.SetTextColor 220 20 60)
  pdf.call (.CellFormat 0 10
    (toString duration ++ " Days / " ++ toString (duration - 1) ++ " Nights") "" 1 "C" false 0 "")

/-- `(*PDFService).addTripOverview`. -/
def addTripOverview (pdf : Fpdf) (itinerary : Itinerary) : Fpdf :=
  let pdf := addSectionTitle pdf "Trip Overview"
  let pdf := pdf.call (.SetFont "Arial" "" 11)
  let pdf := pdf.call (.SetTextColor 0 0 0)
  let pdf := pdf.call (.MultiCell 0 6
    ("Duration: " ++ toString itinerary.Days.length ++ " days") "" "L" false)
  let pdf := pdf.call (.MultiCell 0 6
    ("Hotels: " ++ toString itinerary.Hotels.length ++ " accommodations") "" "L" false)
  let pdf := pdf.call (.MultiCell 0 6
    ("Flights: " ++ toString itinerary.Flights.length ++ " flights booked") "" "L" false)
  let pdf := pdf.call (.MultiCell 0 6
    ("Transfers: " ++ toString itinerary.Transfers.length ++ " transfers arranged") "" "L" false)
  let pdf := pdf.call (.Ln 5)
  let pdf := pdf.call (.SetFont "Arial" "B" 12)
  let pdf := pdf.call (.SetTextColor 220 20 60)
  pdf.call (.MultiCell 0 8
    ("Total Package Cost: " ++ F64.fmt2 itinerary.PaymentPlan.AmountDue) "" "L" false)

/-- The body of the loop of `addTimeSlot`, for one activity. -/
def addActivity (pdf : Fpdf) (activity : Activity) : Fpdf :=
  let pdf := pdf.call (.SetFont "Arial" "B" 11)
  let pdf := pdf.call (.SetTextColor 0 0 0)
  let pdf := pdf.call (.MultiCell 0 6 ("• " ++ activity.Name) "" "L" false)
  let pdf := pdf.call (.SetFont "Arial" "" 10)
  let pdf := pdf.call (.SetTextColor 60 60 60)
  let pdf := pdf.call (.SetLeftMargin 20)
  let pdf := pdf.call (.MultiCell 0 5 activity.Description "" "L" false)
  let pdf := pdf.call (.SetFont "Arial" "I" 9)
  let pdf := pdf.call (.SetTextColor 100 100 100)
  let pdf := pdf.call (.MultiCell 0 5 ("Location: " ++ activity.Location) "" "L" false)
  let pdf :=
    if activity.Duration ≠ "" then
      pdf.call (.MultiCell 0 5 ("Duration: " ++ activity.Duration) "" "L" false)
    else pdf
  let pdf := pdf.call (.SetLeftMargin 10)
  pdf.call (.Ln 3)

/-- `(*PDFService).addTimeSlot`. -/
def addTimeSlot (pdf : Fpdf) (timeSlot : String) (activities : List Activity) : Fpdf :=
  let pdf := pdf.call (.SetFont "Arial" "B" 12)
  let pdf := pdf.call (.SetTextColor 70 130 180)
  let pdf := pdf.call (.CellFormat 0 8 timeSlot "" 1 "L" false 0 "")
  let pdf := activities.foldl addActivity pdf
  pdf.call (.Ln 2)

/-- `(*PDFService).addDayDetails`. -/
def addDayDetails (s : PDFService) (pdf : Fpdf) (day : Day) : Fpdf :=
  let pdf := pdf.call (.SetFont "Arial" "B" 16)
  let pdf := pdf.call (.SetTextColor 25 25 112)
  let pdf := pdf.call (.CellFormat 0 10
    ("Day " ++ toString day.DayNumber ++ " - " ++ day.Title) "" 1 "L" false 0 "")
  let pdf := pdf.call (.SetFont "Arial" "I" 10)
  let pdf := pdf.call (.SetTextColor 100 100 100)
  let pdf := pdf.call (.CellFormat 0 6 (s.Format day.Date "Monday, January 2, 2006")
    "" 1 "L" false 0 "")
  let pdf := pdf.call (.Ln 5)
  let pdf :=
    if day.Activities.Morning.length > 0 then addTimeSlot pdf "Morning" day.Activities.Morning
    else pdf
  let pdf :=
    if day.Activities.Afternoon.length > 0 then
      addTimeSlot pdf "Afternoon" day.Activities.Afternoon
    else pdf
  if day.Activities.Evening.length > 0 then addTimeSlot pdf "Evening" day.Activities.Evening
  else pdf

/-- The body of the loop of `addHotels`, for the hotel at index `i`. -/
def addHotel (s : PDFService) (pdf : Fpdf) (ih : Nat × Hotel) : Fpdf :=
  let pdf := pdf.call (.SetFont "Arial" "B" 12)
  let pdf := pdf.call (.SetTextColor 0 0 0)
  let pdf := pdf.call (.CellFormat 0 8 (toString (ih.1 + 1) ++ ". " ++ ih.2.Name)
    "" 1 "L" false 0 "")
  let pdf := pdf.call (.SetFont "Arial" "" 10)
  let pdf := pdf.call (.SetTextColor 60 60 60)
  let pdf := pdf.call (.MultiCell 0 5 ("City: " ++ ih.2.City) "" "L" false)
  let pdf := pdf.call (.MultiCell 0 5
    ("Check-in: " ++ s.Format ih.2.CheckInDate "January 2, 2006") "" "L" false)
  let pdf := pdf.call (.MultiCell 0 5
    ("Check-out: " ++ s.Format ih.2.CheckOutDate "January 2, 2006") "" "L" false)
  let pdf := pdf.call (.MultiCell 0 5 ("Nights: " ++ toString ih.2.Nights) "" "L" false)
  let pdf :=
    if ih.2.Address ≠ "" then
      let pdf := pdf.call (.SetFont "Arial" "I" 9)
      let pdf := pdf.call (.SetTextColor 100 100 100)
      pdf.call (.MultiCell 0 5 ("Address: " ++ ih.2.Address) "" "L" false)
    else pdf
  pdf.call (.Ln 5)

/-- `(*PDFService).addHotels`. -/
def addHotels (s : PDFService) (pdf : Fpdf) (hotels : List Hotel) : Fpdf :=
  let pdf := addSectionTitle pdf "Accommodation Details"
  hotels.enum.foldl s.addHotel pdf

/-- The body of the loop of `addFlights`, for the flight at index `i`. -/
def addFlight (s : PDFService) (pdf : Fpdf) (ifl : Nat × Flight) : Fpdf :=
  let pdf := pdf.call (.SetFont "Arial" "B" 12)
  let pdf := pdf.call (.SetTextColor 0 0 0)
  let pdf := pdf.call (.CellFormat 0 8
    (toString (ifl.1 + 1) ++ ". " ++ ifl.2.FlightNumber ++ " - " ++ ifl.2.Airline)
    "" 1 "L" false 0 "")
  let pdf := pdf.call (.SetFont "Arial" "" 10)
  let pdf := pdf.call (.SetTextColor 60 60 60)
  let pdf := pdf.call (.MultiCell 0 5 ("From: " ++ ifl.2.From) "" "L" false)
  let pdf := pdf.call (.MultiCell 0 5 ("To: " ++ ifl.2.To) "" "L" false)
  let pdf := pdf.call (.MultiCell 0 5
    ("Departure: " ++ s.Format ifl.2.Departure "January 2, 2006 at 3:04 PM") "" "L" false)
  let pdf := pdf.call (.MultiCell 0 5
    ("Arrival: " ++ s.Format ifl.2.Arrival "January 2, 2006 at 3:04 PM") "" "L" false)
  pdf.call (.Ln 5)

/-- `(*PDFService).addFlights`. -/
def addFlights (s : PDFService) (pdf : Fpdf) (flights : List Flight) : Fpdf :=
  let pdf := addSectionTitle pdf "Flight Details"
  flights.enum.foldl s.addFlight pdf

/-- The body of the loop of `addTransfers`, for the transfer at index `i`. -/
def addTransfer (s : PDFService) (pdf : Fpdf) (it : Nat × Transfer) : Fpdf :=
  let pdf := pdf.call (.SetFont "Arial" "B" 11)
  let pdf := pdf.call (.SetTextColor 0 0 0)
  let pdf := pdf.call (.CellFormat 0 8
    (toString (it.1 + 1) ++ ". " ++ it.2.From ++ " to " ++ it.2.To) "" 1 "L" false 0 "")
  let pdf := pdf.call (.SetFont "Arial" "" 10)
  let pdf := pdf.call (.SetTextColor 60 60 60)
  let pdf := pdf.call (.MultiCell 0 5 ("Mode: " ++ it.2.Mode) "" "L" false)
  let pdf := pdf.call (.MultiCell 0 5
    ("Timing: " ++ s.Format it.2.Timing "January 2, 2006 at 3:04 PM") "" "L" false)
  pdf.call (.Ln 4)

/-- `(*PDFService).addTransfers`. -/
def addTransfers (s : PDFService) (pdf : Fpdf) (transfers : List Transfer) : Fpdf :=
  let pdf := addSectionTitle pdf "Transfer Details"
  transfers.enum.foldl s.addTransfer pdf

/-- The body of the loop of `addPaymentPlan`, for one installment. -/
def addInstallment (s : PDFService) (pdf : Fpdf) (inst : Installment) : Fpdf :=
  let pdf := pdf.call (.SetFont "Arial" "B" 10)
  let pdf := pdf.call (.SetTextColor 0 0 0)
  let pdf := pdf.call (.CellFormat 0 7
    ("Installment " ++ toString inst.InstallmentNumber ++ " - " ++ F64.fmt2 inst.Amount)
    "" 1 "L" false 0 "")
  let pdf := pdf.call (.SetFont "Arial" "" 9)
  let pdf := pdf.call (.SetTextColor 60 60 60)
  let pdf := pdf.call (.MultiCell 0 5
    ("Due Date: " ++ s.Format inst.DueDate "January 2, 2006") "" "L" false)
  let pdf := pdf.call (.MultiCell 0 5 ("Status: " ++ inst.Status) "" "L" false)
  pdf.call (.Ln 3)

/-- `(*PDFService).addPaymentPlan`. -/
def addPaymentPlan (s : PDFService) (pdf : Fpdf) (plan : PaymentPlan) : Fpdf :=
  let pdf := addSectionTitle pdf "Payment Plan"
  let pdf := pdf.call (.SetFont "Arial" "B" 14)
  let pdf := pdf.call (.SetTextColor 220 20 60)
  let pdf := pdf.call (.CellFormat 0 10 ("Total Amount: " ++ F64.fmt2 plan.AmountDue)
    "" 1 "L" false 0 "")
  let pdf := pdf.call (.Ln 5)
  let pdf := pdf.call (.SetFont "Arial" "B" 11)
  let pdf := pdf.call (.SetTextColor 0 0 0)
  let pdf := pdf.call (.CellFormat 0 8 "Installments:" "" 1 "L" false 0 "")
  plan.Installments.foldl s.addInstallment pdf

/-- `(*PDFService).addInclusionsExclusions`. -/
def addInclusionsExclusions (pdf : Fpdf) (inclusions exclusions : List String) : Fpdf :=
  let pdf := addSectionTitle pdf "Inclusions"
  let pdf := pdf.call (.SetFont "Arial" "" 10)
  let pdf := pdf.call (.SetTextColor 0 100 0)
  let pdf := inclusions.foldl
    (fun pdf item => pdf.call (.MultiCell 0 6 ("✓ " ++ item) "" "L" false)) pdf
  let pdf := pdf.call (.Ln 10)
  let pdf := addSectionTitle pdf "Exclusions"
  let pdf := pdf.call (.SetFont "Arial" "" 10)
  let pdf := pdf.call (.SetTextColor 200 0 0)
  exclusions.foldl
    (fun pdf item => pdf.call (.MultiCell 0 6 ("✗ " ++ item) "" "L" false)) pdf

/-- The part of `GeneratePDF` that draws: from `gofpdf.New` to the last section. -/
def render (s : PDFService) (itinerary : Itinerary) : Fpdf :=
  let pdf : Fpdf := []
  let pdf := pdf.call (.SetAutoPageBreak true 15)
  let pdf := pdf.call .AddPage
  let pdf := s.addTitlePage pdf itinerary
  let pdf := pdf.call .AddPage
  let pdf := addTripOverview pdf itinerary
  let pdf := itinerary.Days.foldl (fun pdf day => s.addDayDetails (pdf.call .AddPage) day) pdf
  let pdf := pdf.call .AddPage
  let pdf := s.addHotels pdf itinerary.Hotels
  let pdf := pdf.call .AddPage
  let pdf := s.addFlights pdf itinerary.Flights
  let pdf :=
    if itinerary.Transfers.length > 0 then
      s.addTransfers (pdf.call .AddPage) itinerary.Transfers
    else pdf
  let pdf := pdf.call .AddPage
  let pdf := s.addPaymentPlan pdf itinerary.PaymentPlan
  let pdf := pdf.call .AddPage
  addInclusionsExclusions pdf itinerary.Inclusions itinerary.Exclusions

/-- `(*PDFService).GeneratePDF`. `now` is the result of `time.Now()`, `mkdirErr` that of
`os.MkdirAll` and `saveErr` that of writing the file. The result is the returned path or
error, and the calls issued on the canvas. -/
def GeneratePDF (s : PDFService) (now : Time) (mkdirErr saveErr : Option GoError)
    (itinerary : Itinerary) : Except GoError String × Fpdf :=
  let pdf := s.render itinerary
  let filename := "itinerary_" ++ itinerary.ID ++ "_" ++ s.Format now "20060102_150405" ++ ".pdf"
  let filepath := s.Join s.outputDir filename
  match mkdirErr with
  | some err => (.error (errorfWrap "failed to create output directory : " err ""), pdf)
  | none =>
    let pdf := pdf.call (.OutputFileAndClose filepath)
    match saveErr with
    | some err => (.error (errorfWrap "failed to save PDF: " err ""), pdf)
    | none => (.ok filepath, pdf)

end PDFService

/-! ## package time: dates and formatting -/

/-- The civil date (year, month, day) of the day numbered `z` from 1970-01-01, in the
proleptic Gregorian calendar that package `time` uses. -/
def civilFromDays (z : Int) : Int × Int × Int :=
  let z := z + 719468
  let era := z / 146097
  let doe := z - era * 146097
  let yoe := (doe - doe / 1460 + doe / 36524 - doe / 146096) / 365
  let doy := doe - (365 * yoe + yoe / 4 - yoe / 100)
  let mp := (5 * doy + 2) / 153
  let d := doy - (153 * mp + 2) / 5 + 1
  let m := if mp < 10 then mp + 3 else mp - 9
  (if m ≤ 2 then yoe + era * 400 + 1 else yoe + era * 400, m, d)

/-- A number printed with at least `width` digits, zeros in front. -/
def zeroPad (width : Nat) (n : Int) : String :=
  String.mk (List.replicate (width - (toString n).length) '0') ++ toString n

def monthName (m : Int) : String :=
  ["January", "February", "March", "April", "May", "June", "July", "August", "September",
    "October", "November", "December"].getD (m - 1).toNat ""

/-- The name of the weekday of the day numbered `z` from 1970-01-01, a Thursday. -/
def weekdayName (z : Int) : String :=
  ["Sunday", "Monday", "Tuesday", "Wednesday", "Thursday", "Friday", "Saturday"].getD
    ((z + 4) % 7).toNat ""

/-- The method `t.Format(layout)` for a time whose zone is `offset` seconds east of UTC,
for the four layouts the service uses and years 0 to 9999; any other layout is returned as
it is. -/
def goFormat (offset : Int) (t : Time) (layout : String) : String :=
  let sec := t.unixNano / 1000000000 + offset
  let z := sec / 86400
  let sod := sec % 86400
  let ymd := civilFromDays z
  let hh := sod / 3600
  let mi := sod % 3600 / 60
  let ss := sod % 60
  let date := monthName ymd.2.1 ++ " " ++ toString ymd.2.2 ++ ", " ++ zeroPad 4 ymd.1
  if layout = "20060102_150405" then
    zeroPad 4 ymd.1 ++ zeroPad 2 ymd.2.1 ++ zeroPad 2 ymd.2.2 ++ "_"
      ++ zeroPad 2 hh ++ zeroPad 2 mi ++ zeroPad 2 ss
  else if layout = "January 2, 2006" then date
  else if layout = "Monday, January 2, 2006" then weekdayName z ++ ", " ++ date
  else if layout = "January 2, 2006 at 3:04 PM" then
    date ++ " at " ++ toString (if hh % 12 = 0 then 12 else hh % 12) ++ ":" ++ zeroPad 2 mi
      ++ (if hh < 12 then " AM" else " PM")
  else layout

/-! ## package path/filepath (Unix) -/

/-- The elements of a path: the pieces between its slashes. -/
def splitSlash : List Char → List (List Char)
  | [] => [[]]
  | c :: cs =>
    if c = '/' then [] :: splitSlash cs
    else
      match splitSlash cs with
      | [] => [[c]]
      | e :: es => (c :: e) :: es

/-- The element pass of `Clean`: empty elements and `.` are dropped, `..` removes the
element before it, or is kept at the front of a path that is not rooted. `out` holds the
elements kept so far, last first. -/
def cleanElems (rooted : Bool) : List (List Char) → List (List Char) → List (List Char)
  | out, [] => out.reverse
  | out, e :: rest =>
    if e = [] ∨ e = ['.'] then cleanElems rooted out rest
    else if e = ['.', '.'] then
      match out with
      | [] => if rooted then cleanElems rooted [] rest else cleanElems rooted [e] rest
      | o :: os =>
        if o = ['.', '.'] then cleanElems rooted (e :: o :: os) rest
        else cleanElems rooted os rest
    else cleanElems rooted (e :: out) rest

/-- `filepath.Clean(path)`. -/
def filepathClean (path : String) : String :=
  if path = "" then "."
  else
    let rooted := path.data.head? = some '/'
    let out := cleanElems rooted [] (splitSlash path.data)
    let body := String.mk (List.intercalate ['/'] out)
    if rooted then "/" ++ body else if body = "" then "." else body

/-- `filepath.Join(dir, name)`. -/
def filepathJoin (dir name : String) : String :=
  if dir ≠ "" then filepathClean (dir ++ "/" ++ name)
  else if name ≠ "" then filepathClean name
  else ""

/-- `path.Base(p)` for a path that does not end in a slash: what follows its last slash. -/
def pathBase (p : String) : String :=
  match (splitSlash p.data).getLast? with
  | some e => String.mk e
  | none => p

/-- A `PDFService` on a Unix system whose times are all in the zone `offset` seconds east
of UTC. -/
def pdfServiceAt (outputDir : String) (offset : Int) : PDFService :=
  { outputDir := outputDir, Format := goFormat offset, Join := filepathJoin }

/-! ## controllers: the file name reported for a PDF -/

/-- The expression `filepath[len(filepath)-48:]` of the handlers `GeneratePDF` and
`DownloadPDF`, for a path of one-byte characters: `none` is the run-time panic of a slice
index out of range. -/
def RouteController.reportedFilename (filepath : String) : Option String :=
  if filepath.length < 48 then none
  else some (String.mk (filepath.data.drop (filepath.length - 48)))

/-! ## Named values used in the statements -/

open ItineraryService

/-- The error `validateDays` returns: `ErrInvalidDays` wrapped with both counts. -/
def daysError (expected : Int) (got : Nat) : GoError :=
  .wrapError ("number of days doesn't match date range: expected "
    ++ toString expected ++ " days, got " ++ toString got) ErrInvalidDays

/-- The error `CreateItinerary` returns when the store already holds the new ID. -/
def createError : GoError :=
  errorfWrap "failed to create itinerary: "
    (errorsNew "repository.Create" "itinerary already exists") ""

/-- `time.Unix(sec, nsec)`. -/
def Time.Unix (sec nsec : Int) : Time := ⟨sec * 1000000000 + nsec⟩

/-- 2024-01-01T00:00:00Z. -/
def jan1 : Time := Time.Unix 1704067200 0

/-- 2024-01-03T00:00:00Z. -/
def jan3 : Time := Time.Unix 1704240000 0

/-- The constant `0.01` of `validatePaymentPlan`, as a float64. -/
def cent : F64 := F64.ofDecimal false 1 100

/-- A payment plan with the given total and installment amounts, numbered from 1. -/
def planOf (due : F64) (amounts : List F64) : PaymentPlan :=
  { AmountDue := due
    DueDate := jan1
    Installments := amounts.enum.map
      (fun ia => { InstallmentNumber := (ia.1 : Int) + 1, Amount := ia.2, DueDate := jan1,
                   Status := "pending" }) }

/-- AmountDue=1000.00 with installments [400.00, 600.00]. -/
def planExact : PaymentPlan :=
  planOf (F64.ofDecimal false 1000 1) [F64.ofDecimal false 400 1, F64.ofDecimal false 600 1]

/-- AmountDue=1000.00 with installments [400.00, 599.00]. -/
def planShort : PaymentPlan :=
  planOf (F64.ofDecimal false 1000 1) [F64.ofDecimal false 400 1, F64.ofDecimal false 599 1]

/-- AmountDue=100000000000000000 with installments [100000000000000000, 1]. -/
def planHuge : PaymentPlan :=
  planOf (F64.ofDecimal false 100000000000000000 1)
    [F64.ofDecimal false 100000000000000000 1, F64.ofDecimal false 1 1]

/-- AmountDue=100.00 with the single installment 100.01. -/
def planHair : PaymentPlan :=
  planOf (F64.ofDecimal false 100 1) [F64.ofDecimal false 10001 100]

/-- AmountDue=1000.06 with installments [400.00, 600.07]. -/
def planCent : PaymentPlan :=
  planOf (F64.ofDecimal false 100006 100)
    [F64.ofDecimal false 400 1, F64.ofDecimal false 60007 100]

/-- The zero value of `models.Itinerary`. -/
def blankItinerary : Itinerary :=
  { ID := "", UserID := "", Title := "", Destination := "", StartDate := ⟨0⟩, EndDate := ⟨0⟩,
    Days := [], Hotels := [], Flights := [], Transfers := [],
    PaymentPlan := { AmountDue := F64.zero, DueDate := ⟨0⟩, Installments := [] },
    Inclusions := [], Exclusions := [], CreatedAt := ⟨0⟩, UpdatedAt := ⟨0⟩ }

/-- The state after `NewInMemoryRepo()`: nothing allocated, nothing stored. -/
def emptyWorld : World :=
  { heap := fun _ => blankItinerary, next := 0, itineraries := fun _ => none }

/-- A day with the given number and title, and no activities. -/
def dayOf (n : Int) (title : String) : Day :=
  { DayNumber := n, Date := jan1, Title := title,
    Activities := { Morning := [], Afternoon := [], Evening := [] } }

/-- A create request with the given dates, days and payment plan. -/
def requestOf (startDate endDate : Time) (days : List Day) (plan : PaymentPlan) :
    CreateItineraryReq :=
  { UserID := "user-1", Title := "Trip", Destination := "Goa", StartDate := startDate,
    EndDate := endDate, Days := days, Hotels := [], Flights := [], Transfers := [],
    PaymentPlan := plan, Inclusions := [], Exclusions := [] }

/-- Three days numbered 1 to 3. -/
def threeDays : List Day := [dayOf 1 "Arrival", dayOf 2 "Beach", dayOf 3 "Departure"]

/-- Every amount of the plan is a finite float64, as every amount decoded from JSON is. -/
def PaymentPlan.finite (plan : PaymentPlan) : Prop :=
  plan.AmountDue.isFinite = true ∧ ∀ inst ∈ plan.Installments, inst.Amount.isFinite = true

/-- The payment-plan condition in the words of the specification, in exact arithmetic on
the numbers the amounts denote: `AmountDue > 0`, at least one installment, and
`|sum of Installment.Amount - AmountDue| ≤ 0.01`. Amounts are counted in units of
`2^-1074`, in which `0.01` is `F64.one / 100`. -/
def specPaymentPlanOk (plan : PaymentPlan) : Prop :=
  0 < plan.AmountDue.key ∧ plan.Installments ≠ [] ∧
    100 * ((plan.Installments.map (fun inst => inst.Amount.key)).sum
      - plan.AmountDue.key).natAbs ≤ F64.one

/-- The tolerance test of `validatePaymentPlan` as it is computed: the float64 sum lies
between the float64 values `AmountDue - 0.01` and `AmountDue + 0.01`, bounds included. -/
def withinTolerance (plan : PaymentPlan) : Prop :=
  F64.le (F64.sub plan.AmountDue cent) (sumInstallments plan.Installments) = true ∧
    F64.le (sumInstallments plan.Installments) (F64.add plan.AmountDue cent) = true

/-- The five invariants in the words of the specification, in exact arithmetic: EndDate
strictly after StartDate, as many days as whole days from StartDate to EndDate plus one,
and the payment-plan condition `specPaymentPlanOk`. -/
def specCreateOk (req : CreateItineraryReq) : Prop :=
  req.StartDate.unixNano < req.EndDate.unixNano ∧
    (req.Days.length : Int) = (req.EndDate.unixNano - req.StartDate.unixNano) / (24 * Hour) + 1 ∧
    specPaymentPlanOk req.PaymentPlan

/-- 2024-01-05T00:00:00Z. -/
def jan5 : Time := Time.Unix 1704412800 0

/-- 2024-02-01T00:00:00Z, used as the instant of an update. -/
def feb1 : Time := Time.Unix 1706745600 0

/-- The state after one successful `CreateItinerary` on the empty store: the itinerary
"id-1" for 2024-01-01 to 2024-01-03 with three days and AmountDue=1000.00 against
[400.00, 600.00]. -/
def storedWorld : World :=
  (CreateItinerary emptyWorld jan1 "id-1" (requestOf jan1 jan3 threeDays planExact)).2

/-- An update request that supplies only `end_date`. -/
def onlyEndDate (t : Time) : UpdateItineraryReq :=
  { Title := none, Destination := none, StartDate := none, EndDate := some t, Days := none,
    Hotels := none, Flights := none, Transfers := none, PaymentPlan := none,
    Inclusions := none, Exclusions := none }

/-- An update request that supplies only `payment_plan`. -/
def onlyPaymentPlan (plan : PaymentPlan) : UpdateItineraryReq :=
  { Title := none, Destination := none, StartDate := none, EndDate := none, Days := none,
    Hotels := none, Flights := none, Transfers := none, PaymentPlan := some plan,
    Inclusions := none, Exclusions := none }

/-- The merge the specification describes for an update: a supplied field replaces the
stored one, an omitted field keeps it, ID, UserID and CreatedAt stay, UpdatedAt becomes
the instant of the update. -/
def mergeUpdate (old : Itinerary) (now : Time) (req : UpdateItineraryReq) : Itinerary :=
  { ID := old.ID
    UserID := old.UserID
    Title := req.Title.getD old.Title
    Destination := req.Destination.getD old.Destination
    StartDate := req.StartDate.getD old.StartDate
    EndDate := req.EndDate.getD old.EndDate
    Days := req.Days.getD old.Days
    Hotels := req.Hotels.getD old.Hotels
    Flights := req.Flights.getD old.Flights
    Transfers := req.Transfers.getD old.Transfers
    PaymentPlan := req.PaymentPlan.getD old.PaymentPlan
    Inclusions := req.Inclusions.getD old.Inclusions
    Exclusions := req.Exclusions.getD old.Exclusions
    CreatedAt := old.CreatedAt
    UpdatedAt := now }

/-- The effect of one guarded assignment on the itinerary it writes to. -/
def setIf {α : Type} (field : Option α) (set : α → Itinerary → Itinerary) (it : Itinerary) :
    Itinerary :=
  match field with
  | some v => set v it
  | none => it

/-- The error the store returns for an ID it does not hold: a fresh `errors.New`. -/
def repoNotFound (method : String) : GoError := errorsNew method "itinerary not found"

/-- The calls issued on each page the pipeline opens itself: for every `AddPage` in the
log, the calls that follow it up to the next `AddPage`. -/
def pages : List PdfCall → List (List PdfCall)
  | [] => []
  | c :: rest =>
    if c = PdfCall.AddPage then rest.takeWhile (fun d => decide (d ≠ PdfCall.AddPage)) :: pages rest
    else pages rest

/-- The first text a list of calls places on the canvas. -/
def firstText : List PdfCall → Option String
  | [] => none
  | .CellFormat _ _ txt _ _ _ _ _ _ :: _ => some txt
  | .MultiCell _ _ txt _ _ _ :: _ => some txt
  | _ :: rest => firstText rest

/-- The log that opens a page for each list of calls and then issues them. -/
def blocks : List (List PdfCall) → List PdfCall
  | [] => []
  | b :: bs => PdfCall.AddPage :: (b ++ blocks bs)

/-- A list of calls that opens no page. -/
def NoAddPage (l : List PdfCall) : Prop := ∀ c ∈ l, c ≠ PdfCall.AddPage

/-- A drawing step: it only appends calls to the canvas, the same ones whatever the canvas
holds, and none of them opens a page. -/
def IsDrawer (f : Fpdf → Fpdf) : Prop :=
  (∀ pdf, f pdf = pdf ++ f []) ∧ NoAddPage (f [])

/-- The calls of the sections of an itinerary, each drawn on an empty canvas, in the order
of the specification: title, overview, one per day in stored order, hotels, flights,
transfers when there are any, payment plan, inclusions and exclusions. -/
def sectionBodies (s : PDFService) (it : Itinerary) : List (List PdfCall) :=
  [s.addTitlePage [] it, PDFService.addTripOverview [] it]
    ++ it.Days.map (fun day => s.addDayDetails [] day)
    ++ [s.addHotels [] it.Hotels, s.addFlights [] it.Flights]
    ++ (if it.Transfers = [] then [] else [s.addTransfers [] it.Transfers])
    ++ [s.addPaymentPlan [] it.PaymentPlan,
        PDFService.addInclusionsExclusions [] it.Inclusions it.Exclusions]

/-- The heading each section opens with: the first text placed on its page. -/
def sectionHeadings (it : Itinerary) : List (Option String) :=
  [some it.Title, some "Trip Overview"]
    ++ it.Days.map (fun day => some ("Day " ++ toString day.DayNumber ++ " - " ++ day.Title))
    ++ [some "Accommodation Details", some "Flight Details"]
    ++ (if it.Transfers = [] then [] else [some "Transfer Details"])
    ++ [some "Payment Plan", some "Inclusions"]

/-- A magnitude with at most 53 significant bits: the magnitudes of the finite doubles
are the representable ones below `F64.overflowMag`. -/
def Representable (B : Nat) : Prop := ∃ m e, B = m * 2 ^ e ∧ m < 2 ^ 53

/-- The texts a list of calls places on the canvas, in the order of the calls. -/
def texts : List PdfCall → List String
  | [] => []
  | .CellFormat _ _ txt _ _ _ _ _ _ :: rest => txt :: texts rest
  | .MultiCell _ _ txt _ _ _ :: rest => txt :: texts rest
  | _ :: rest => texts rest

/-- The lines of one activity: its name, description and location, and a duration line
when its duration string is not empty. -/
def activityTexts (a : Activity) : List String :=
  ["• " ++ a.Name, a.Description, "Location: " ++ a.Location]
    ++ (if a.Duration = "" then [] else ["Duration: " ++ a.Duration])

/-- The lines of a time-slot block: none for an empty activity list, otherwise the name of
the slot and then the lines of every activity, in input order. -/
def slotTexts (timeSlot : String) (activities : List Activity) : List String :=
  if activities = [] then [] else timeSlot :: (activities.map activityTexts).flatten

/-- The number of the calendar day an instant falls on, counted from 1970-01-01, in the
zone `offset` seconds east of UTC. -/
def dayNumber (offset : Int) (t : Time) : Int :=
  (t.unixNano + offset * 1000000000) / 86400000000000

/-- The time of day of an instant, in nanoseconds after midnight, in the zone `offset`
seconds east of UTC. -/
def timeOfDay (offset : Int) (t : Time) : Int :=
  (t.unixNano + offset * 1000000000) % 86400000000000

/-- The inclusive day span in the words of the specification: the number of calendar days
from `startDate` to `endDate`, counting both endpoints. -/
def specInclusiveDaySpan (offset : Int) (startDate endDate : Time) : Int :=
  dayNumber offset endDate - dayNumber offset startDate + 1

/-- 2024-01-01T23:00:00Z. -/
def jan1Late : Time := Time.Unix 1704150000 0

/-- 2024-01-02T01:00:00Z. -/
def jan2Early : Time := Time.Unix 1704157200 0

/-- 2024-01-02T23:30:00Z. -/
def jan2Late : Time := Time.Unix 1704238200 0

/-- The local variable `filename` of `GeneratePDF`. -/
def PDFService.filename (s : PDFService) (now : Time) (itinerary : Itinerary) : String :=
  "itinerary_" ++ itinerary.ID ++ "_" ++ s.Format now "20060102_150405" ++ ".pdf"

/-- An ID as `uuid.New().String()` gives them: 36 characters. -/
def sampleID : String := "123e4567-e89b-12d3-a456-426614174000"

/-- An itinerary with the ID `id`. -/
def itineraryWithID (id : String) : Itinerary := { blankItinerary with ID := id }

/-- 2024-01-01T12:00:00.1Z. -/
def noonEarly : Time := Time.Unix 1704110400 100000000

/-- 2024-01-01T12:00:00.9Z, 0.8 seconds after `noonEarly`. -/
def noonLate : Time := Time.Unix 1704110400 900000000

/-- A day with one activity in the morning, none in the afternoon and two in the evening,
the second without a duration. -/
def sampleDay : Day :=
  { dayOf 1 "Arrival" with
    Activities :=
      { Morning := [{ Name := "Check-in", Description := "Hotel", Location := "Patong",
                      Duration := "1 hour" }]
        Afternoon := []
        Evening := [{ Name := "Dinner", Description := "Seafood", Location := "Beach",
                      Duration := "2 hours" },
                    { Name := "Walk", Description := "", Location := "Pier",
                      Duration := "" }] } }

/-- 2024-01-01T12:00:01Z, the second after that of `noonEarly`. -/
def noonNext : Time := Time.Unix 1704110401 0

/-- 2024-06-19T23:59:59.999999999Z: 171 days after `jan1`, less one nanosecond. -/
def jun19Last : Time := Time.Unix 1718841599 999999999

/-- The days numbered 1 to `n`. -/
def daysUpTo (n : Nat) : List Day :=
  (List.range n).map (fun i => dayOf ((i : Int) + 1) "Day")

/-- The amount-mismatch error of `validatePaymentPlan`. -/
def mismatchError (sum due : F64) : GoError :=
  errorsNew "service.validatePaymentPlan"
    ("installment amounts (" ++ F64.fmt2 sum ++ ") don't match total amount ("
      ++ F64.fmt2 due ++ ")")

end ItineraryApi

namespace ItineraryApi
open ItineraryService

/-! ## Rounding to float64 -/

/-- The model on values whose float64 results are well known: `0.1 + 0.2` is
`0.30000000000000004`, above `0.3`; `2^53 + 1` is `2^53`; the largest double added to
itself overflows to `+Inf`; `1/3` is `0.333333333333333314829616256247...`, exactly
`6004799503160661 * 2^-54`; `%.2f` prints `2.675` as `2.67`, `0.125` as `0.12` and `-0.001`
as `-0.00`. -/
theorem f64_known_values :
    F64.add (F64.ofDecimal false 1 10) (F64.ofDecimal false 2 10)
      = F64.ofDecimal false 30000000000000004 100000000000000000 ∧
    F64.lt (F64.ofDecimal false 3 10)
      (F64.add (F64.ofDecimal false 1 10) (F64.ofDecimal false 2 10)) = true ∧
    F64.add (F64.ofInt 9007199254740992) (F64.ofInt 1) = F64.ofInt 9007199254740992 ∧
    F64.add (F64.fin false (9007199254740991 <<< 2045)) (F64.fin false (9007199254740991 <<< 2045))
      = F64.inf false ∧
    F64.div (F64.ofInt 1) (F64.ofInt 3) = F64.fin false (6004799503160661 <<< 1020) ∧
    F64.fmt2 (F64.ofDecimal false 2675 1000) = "2.67" ∧
    F64.fmt2 (F64.ofDecimal false 125 1000) = "0.12" ∧
    F64.fmt2 (F64.ofDecimal true 1 1000) = "-0.00" := by
  decide

theorem ilog2Step_inv (n p : Nat) (st : Nat × Nat)
    (h : 1 ≤ st.1 ∧ st.1 < 2 ^ (p + p) ∧ st.1 = n / 2 ^ st.2) :
    1 ≤ (ilog2Step st p).1 ∧ (ilog2Step st p).1 < 2 ^ p ∧
      (ilog2Step st p).1 = n / 2 ^ (ilog2Step st p).2 := by
  obtain ⟨h1, h2, h3⟩ := h
  unfold ilog2Step
  rw [Nat.shiftLeft_eq, Nat.one_mul, Nat.shiftRight_eq_div_pow]
  have hp : 0 < 2 ^ p := Nat.two_pow_pos _
  split_ifs with hc
  · refine ⟨?_, ?_, ?_⟩
    · exact (Nat.le_div_iff_mul_le hp).2 (by simpa using hc)
    · apply Nat.div_lt_of_lt_mul
      rw [← pow_add]
      exact h2
    · show st.1 / 2 ^ p = n / 2 ^ (st.2 + p)
      rw [h3, Nat.div_div_eq_div_mul, pow_add]
  · exact ⟨h1, by omega, h3⟩

/-- `ilog2` is the position of the highest set bit. -/
theorem ilog2_spec (n : Nat) (h0 : 0 < n) (h1 : n < 2 ^ 4096) :
    2 ^ ilog2 n ≤ n ∧ n < 2 ^ (ilog2 n + 1) := by
  have i0 : 1 ≤ ((n, 0) : Nat × Nat).1 ∧ ((n, 0) : Nat × Nat).1 < 2 ^ (2048 + 2048)
      ∧ ((n, 0) : Nat × Nat).1 = n / 2 ^ ((n, 0) : Nat × Nat).2 := ⟨h0, h1, by simp⟩
  have i1 := ilog2Step_inv n 2048 _ i0
  have i2 := ilog2Step_inv n 1024 _ i1
  have i3 := ilog2Step_inv n 512 _ i2
  have i4 := ilog2Step_inv n 256 _ i3
  have i5 := ilog2Step_inv n 128 _ i4
  have i6 := ilog2Step_inv n 64 _ i5
  have i7 := ilog2Step_inv n 32 _ i6
  have i8 := ilog2Step_inv n 16 _ i7
  have i9 := ilog2Step_inv n 8 _ i8
  have i10 := ilog2Step_inv n 4 _ i9
  have i11 := ilog2Step_inv n 2 _ i10
  have i12 := ilog2Step_inv n 1 _ i11
  have e : ilog2 n = (ilog2Step (ilog2Step (ilog2Step (ilog2Step (ilog2Step (ilog2Step
      (ilog2Step (ilog2Step (ilog2Step (ilog2Step (ilog2Step (ilog2Step (n, 0) 2048) 1024) 512)
      256) 128) 64) 32) 16) 8) 4) 2) 1).2 := by
    simp only [ilog2, List.foldl]
  rw [e]
  obtain ⟨a, b, c⟩ := i12
  generalize (ilog2Step (ilog2Step (ilog2Step (ilog2Step (ilog2Step (ilog2Step
      (ilog2Step (ilog2Step (ilog2Step (ilog2Step (ilog2Step (ilog2Step (n, 0) 2048) 1024) 512)
      256) 128) 64) 32) 16) 8) 4) 2) 1) = st at a b c ⊢
  have hx : st.1 = 1 := by omega
  rw [hx] at c
  have hp : 0 < 2 ^ st.2 := Nat.two_pow_pos _
  constructor
  · have := (Nat.le_div_iff_mul_le hp).1 (le_of_eq c)
    simpa using this
  · have h2 : n / 2 ^ st.2 < 2 := by omega
    have := (Nat.div_lt_iff_lt_mul hp).1 h2
    rw [pow_succ]
    omega

theorem representable_dvd (B s : Nat) (hB : Representable B) (h : 2 ^ (52 + s) ≤ B) :
    2 ^ s ∣ B := by
  obtain ⟨m, e, rfl, hm⟩ := hB
  have h1 : 2 ^ (52 + s) < 2 ^ 53 * 2 ^ e :=
    lt_of_le_of_lt h (Nat.mul_lt_mul_of_pos_right hm (Nat.two_pow_pos e))
  rw [← pow_add] at h1
  have h2 : 52 + s < 53 + e := (Nat.pow_lt_pow_iff_right (by norm_num)).1 h1
  have h3 : s ≤ e := by omega
  exact Dvd.dvd.mul_left (pow_dvd_pow 2 h3) m

theorem roundHalfEven_le_of_le (p q b : Nat) (hq : 0 < q) (h : p ≤ b * q) :
    roundHalfEven p q ≤ b := by
  unfold roundHalfEven
  have ht : p / q ≤ b := Nat.div_le_of_le_mul (by rw [Nat.mul_comm]; exact h)
  have hdm := Nat.div_add_mod p q
  simp only []
  split_ifs with hc
  · have hr : 0 < p % q := by
      rcases hc with hc | ⟨hc, _⟩ <;> omega
    by_contra hcon
    have hb : p / q = b := by omega
    rw [hb] at hdm
    have : q * b = b * q := Nat.mul_comm _ _
    omega
  · exact ht

theorem le_roundHalfEven_of_le (p q b : Nat) (hq : 0 < q) (h : b * q ≤ p) :
    b ≤ roundHalfEven p q := by
  unfold roundHalfEven
  have ht : b ≤ p / q := (Nat.le_div_iff_mul_le hq).2 h
  simp only []
  split_ifs <;> omega

/-- The shift `roundRat` chooses, when the quotient has more than 53 bits. -/
theorem roundRat_shift (t : Nat) (h53 : 2 ^ 53 ≤ t) (hlt : t < 2 ^ 4096) :
    2 ^ (52 + (ilog2 t - 52)) ≤ t := by
  have ht0 : 0 < t := lt_of_lt_of_le (Nat.two_pow_pos 53) h53
  obtain ⟨h1, h2⟩ := ilog2_spec t ht0 hlt
  have h3 : 2 ^ 53 < 2 ^ (ilog2 t + 1) := lt_of_le_of_lt h53 h2
  have h4 : 53 < ilog2 t + 1 := (Nat.pow_lt_pow_iff_right (by norm_num)).1 h3
  have h5 : 52 + (ilog2 t - 52) = ilog2 t := by omega
  rw [h5]
  exact h1

theorem roundRat_eq (p q : Nat) :
    roundRat p q =
      roundHalfEven p (q * 2 ^ (if p / q < 2 ^ 53 then 0 else ilog2 (p / q) - 52))
        * 2 ^ (if p / q < 2 ^ 53 then 0 else ilog2 (p / q) - 52) := by
  simp only [roundRat, Nat.shiftLeft_eq, Nat.one_mul]

/-- Rounding never goes above a float64 magnitude that the exact value does not exceed. -/
theorem roundRat_le (p q B : Nat) (hq : 0 < q) (hB : Representable B) (h : p ≤ B * q)
    (hlt : p / q < 2 ^ 4096) : roundRat p q ≤ B := by
  rw [roundRat_eq]
  by_cases h53 : p / q < 2 ^ 53
  · simp only [if_pos h53, pow_zero, Nat.mul_one]
    exact roundHalfEven_le_of_le p q B hq h
  · simp only [if_neg h53]
    have hs := roundRat_shift (p / q) (by omega) hlt
    generalize ilog2 (p / q) - 52 = s at hs ⊢
    have htB : p / q ≤ B := Nat.div_le_of_le_mul (by rw [Nat.mul_comm]; exact h)
    obtain ⟨b, rfl⟩ := representable_dvd B s hB (le_trans hs htB)
    have hq2 : 0 < q * 2 ^ s := Nat.mul_pos hq (Nat.two_pow_pos s)
    have h2 : p ≤ b * (q * 2 ^ s) := by
      calc p ≤ 2 ^ s * b * q := h
        _ = b * (q * 2 ^ s) := by ring
    have := roundHalfEven_le_of_le p (q * 2 ^ s) b hq2 h2
    calc roundHalfEven p (q * 2 ^ s) * 2 ^ s ≤ b * 2 ^ s := Nat.mul_le_mul_right _ this
      _ = 2 ^ s * b := Nat.mul_comm _ _

/-- Rounding never goes below a float64 magnitude that the exact value reaches. -/
theorem le_roundRat (p q B : Nat) (hq : 0 < q) (hB : Representable B) (h : B * q ≤ p)
    (hlt : p / q < 2 ^ 4096) : B ≤ roundRat p q := by
  rw [roundRat_eq]
  by_cases h53 : p / q < 2 ^ 53
  · simp only [if_pos h53, pow_zero, Nat.mul_one]
    exact le_roundHalfEven_of_le p q B hq h
  · simp only [if_neg h53]
    have hs := roundRat_shift (p / q) (by omega) hlt
    generalize ilog2 (p / q) - 52 = s at hs ⊢
    have hq2 : 0 < q * 2 ^ s := Nat.mul_pos hq (Nat.two_pow_pos s)
    by_cases hBs : 2 ^ (52 + s) ≤ B
    · obtain ⟨b, rfl⟩ := representable_dvd B s hB hBs
      have h2 : b * (q * 2 ^ s) ≤ p := by
        calc b * (q * 2 ^ s) = 2 ^ s * b * q := by ring
          _ ≤ p := h
      have := le_roundHalfEven_of_le p (q * 2 ^ s) b hq2 h2
      calc 2 ^ s * b = b * 2 ^ s := Nat.mul_comm _ _
        _ ≤ roundHalfEven p (q * 2 ^ s) * 2 ^ s := Nat.mul_le_mul_right _ this
    · have h3 : 2 ^ 52 * (q * 2 ^ s) ≤ p := by
        have : 2 ^ (52 + s) * q ≤ p := by
          have := (Nat.le_div_iff_mul_le hq).1 hs
          exact this
        calc 2 ^ 52 * (q * 2 ^ s) = 2 ^ (52 + s) * q := by rw [pow_add]; ring
          _ ≤ p := this
      have := le_roundHalfEven_of_le p (q * 2 ^ s) (2 ^ 52) hq2 h3
      have h4 : 2 ^ (52 + s) ≤ roundHalfEven p (q * 2 ^ s) * 2 ^ s := by
        rw [pow_add]
        exact Nat.mul_le_mul_right _ this
      omega

/-- A representable magnitude rounds to itself. -/
theorem roundRat_exact (B : Nat) (hB : Representable B) (hlt : B < 2 ^ 4096) :
    roundRat B 1 = B := by
  have h1 := roundRat_le B 1 B (by norm_num) hB (by simp) (by simpa using hlt)
  have h2 := le_roundRat B 1 B (by norm_num) hB (by simp) (by simpa using hlt)
  omega

theorem one_eq : F64.one = 2 ^ 1074 := by
  simp only [F64.one, Nat.shiftLeft_eq, Nat.one_mul]

theorem overflowMag_eq : F64.overflowMag = 2 ^ 2098 := by
  simp only [F64.overflowMag, Nat.shiftLeft_eq, Nat.one_mul]

theorem pack_eq_fin (neg : Bool) (p q m : Nat) (h : roundRat p q = m)
    (hm : m < F64.overflowMag) : F64.pack neg p q = F64.fin neg m := by
  simp only [F64.pack, h, if_pos hm]

theorem pow_lt_4096 (x e : Nat) (hx : x < 2 ^ e) (he : e ≤ 4096) : x < 2 ^ 4096 :=
  lt_of_lt_of_le hx (Nat.pow_le_pow_right (by norm_num) he)

theorem div_lt_4096 (p q e : Nat) (hp : p < 2 ^ e) (he : e ≤ 4096) : p / q < 2 ^ 4096 :=
  lt_of_le_of_lt (Nat.div_le_self p q) (pow_lt_4096 p e hp he)

/-- The conversion of a natural number below `2^53` is exact. -/
theorem ofInt_natCast (n : Nat) (h : n < 2 ^ 53) :
    F64.ofInt (n : Int) = F64.fin false (n * F64.one) := by
  have hlt : n * F64.one < 2 ^ 1127 := by
    rw [one_eq, show (1127 : Nat) = 53 + 1074 from rfl, pow_add]
    exact Nat.mul_lt_mul_of_pos_right h (Nat.two_pow_pos _)
  have hr : roundRat (n * F64.one) 1 = n * F64.one :=
    roundRat_exact _ ⟨n, 1074, by rw [one_eq], h⟩ (pow_lt_4096 _ _ hlt (by norm_num))
  have hneg : decide ((n : Int) < 0) = false := by simp
  unfold F64.ofInt
  rw [hneg, Int.natAbs_ofNat]
  exact pack_eq_fin _ _ _ _ hr
    (by rw [overflowMag_eq]; exact lt_of_lt_of_le hlt (Nat.pow_le_pow_right (by norm_num) (by norm_num)))

/-- The quotient of the remainder of an hour by an hour, in float64, for a remainder that
is a whole number of milliseconds: at most `1 - 2^-22`. -/
theorem frac_hour_bound (m : Nat) (hm : m + 1000000 ≤ 3600000000000) :
    ∃ q1, F64.div (F64.ofInt (m : Int)) (F64.ofInt (60 * 60 * 1000000000))
        = F64.fin false q1 ∧ q1 + 2 ^ 1052 ≤ F64.one := by
  have e2 : F64.ofInt (m : Int) = F64.fin false (m * F64.one) :=
    ofInt_natCast m (by
      have : (3600000000000 : Nat) < 2 ^ 53 := by norm_num
      omega)
  have e3 : F64.ofInt (60 * 60 * 1000000000) = F64.fin false (3600000000000 * F64.one) :=
    ofInt_natCast 3600000000000 (by norm_num)
  obtain ⟨Y, hY⟩ : ∃ Y, Y = 2 ^ 1052 := ⟨_, rfl⟩
  have hone : F64.one = 4194304 * Y := by
    rw [one_eq, hY, show (1074 : Nat) = 22 + 1052 from rfl, pow_add]
    norm_num
  have hYpos : 0 < Y := by rw [hY]; exact Nat.two_pow_pos _
  have hq : 0 < 3600000000000 * F64.one := by rw [hone]; omega
  have hrep : Representable (4194303 * Y) := ⟨4194303, 1052, by rw [hY], by norm_num⟩
  have hmY : m * 4194304 * Y ≤ 4194303 * 3600000000000 * Y :=
    Nat.mul_le_mul_right Y (by omega)
  have hle : m * F64.one * F64.one ≤ 4194303 * Y * (3600000000000 * F64.one) := by
    have : m * F64.one ≤ 4194303 * Y * 3600000000000 := by
      rw [hone]
      calc m * (4194304 * Y) = m * 4194304 * Y := by ring
        _ ≤ 4194303 * 3600000000000 * Y := hmY
        _ = 4194303 * Y * 3600000000000 := by ring
    calc m * F64.one * F64.one ≤ 4194303 * Y * 3600000000000 * F64.one :=
          Nat.mul_le_mul_right _ this
      _ = 4194303 * Y * (3600000000000 * F64.one) := by ring
  have hp : m * F64.one * F64.one < 2 ^ 2201 := by
    have h1 : m < 2 ^ 53 := by
      have : (3600000000000 : Nat) < 2 ^ 53 := by norm_num
      omega
    rw [one_eq, show (2201 : Nat) = 53 + 1074 + 1074 from rfl, pow_add, pow_add]
    exact Nat.mul_lt_mul_of_pos_right (Nat.mul_lt_mul_of_pos_right h1 (Nat.two_pow_pos _))
      (Nat.two_pow_pos _)
  have hub := roundRat_le (m * F64.one * F64.one) (3600000000000 * F64.one) (4194303 * Y) hq
    hrep hle (div_lt_4096 _ _ _ hp (by norm_num))
  refine ⟨roundRat (m * F64.one * F64.one) (3600000000000 * F64.one), ?_, ?_⟩
  · rw [e2, e3]
    have hne : 3600000000000 * F64.one ≠ 0 := by omega
    simp only [F64.div, if_neg hne]
    apply pack_eq_fin _ _ _ _ rfl
    rw [overflowMag_eq]
    have : 4194303 * Y < 2 ^ 2098 := by
      have h1 : 4194303 * Y < 2 ^ 22 * 2 ^ 1052 := by
        rw [hY]
        exact Nat.mul_lt_mul_of_pos_right (by norm_num) (Nat.two_pow_pos _)
      rw [← pow_add] at h1
      exact lt_of_lt_of_le h1 (Nat.pow_le_pow_right (by norm_num) (by norm_num))
    omega
  · have h1 : roundRat (m * F64.one * F64.one) (3600000000000 * F64.one) + Y ≤ 4194304 * Y := by
      omega
    rw [← hY]
    exact h1.trans (le_of_eq hone.symm)

theorem hour_eq : Hour = ((3600000000000 : Nat) : Int) := by
  norm_num [Hour]

/-- The sum of two non-negative finite doubles. -/
theorem add_fin_false (a b : Nat) :
    F64.add (F64.fin false a) (F64.fin false b)
      = if a + b = 0 then F64.fin false 0 else F64.pack false (a + b) 1 := by
  have hs : F64.signed false a + F64.signed false b = ((a + b : Nat) : Int) := by
    simp [F64.signed]
  simp only [F64.add, hs, Bool.and_self, Int.natAbs_ofNat]
  by_cases h : a + b = 0
  · have : ((a + b : Nat) : Int) = 0 := by omega
    rw [if_pos h, if_pos this]
  · have h1 : ¬ ((a + b : Nat) : Int) = 0 := by omega
    have h2 : decide (((a + b : Nat) : Int) < 0) = false := by
      simp only [decide_eq_false_iff_not]
      omega
    rw [if_neg h, if_neg h1, h2]

/-- `Hours()` of a non-negative duration that is a whole number of milliseconds lies
between its whole hours `h` and `h + 1 - 2^-22`. -/
theorem hours_bound (n : Nat) (hn : n ≤ 9223372036854775807) (hms : n % 1000000 = 0) :
    ∃ Hm, Duration.Hours (n : Int) = F64.fin false Hm ∧
      n / 3600000000000 * F64.one ≤ Hm ∧
      Hm + 2 ^ 1052 ≤ (n / 3600000000000 + 1) * F64.one := by
  have hm : n % 3600000000000 + 1000000 ≤ 3600000000000 := by omega
  obtain ⟨q1, hq1, hq1b⟩ := frac_hour_bound (n % 3600000000000) hm
  have hh : n / 3600000000000 < 4194304 := by omega
  have e1 : F64.ofInt ((n / 3600000000000 : Nat) : Int)
      = F64.fin false (n / 3600000000000 * F64.one) :=
    ofInt_natCast _ (by
      have : (4194304 : Nat) < 2 ^ 53 := by norm_num
      omega)
  have htd : Int.tdiv (n : Int) Hour = ((n / 3600000000000 : Nat) : Int) := by
    rw [hour_eq, Int.ofNat_tdiv]
  have htm : Int.tmod (n : Int) Hour = ((n % 3600000000000 : Nat) : Int) := by
    rw [hour_eq, Int.ofNat_tmod]
  unfold Duration.Hours
  simp only [htd, htm, hq1, e1, add_fin_false]
  generalize n / 3600000000000 = h at hh ⊢
  obtain ⟨Y, hY⟩ : ∃ Y, Y = 2 ^ 1052 := ⟨_, rfl⟩
  have hone : F64.one = 4194304 * Y := by
    rw [one_eq, hY, show (1074 : Nat) = 22 + 1052 from rfl, pow_add]
    norm_num
  have hYpos : 0 < Y := by rw [hY]; exact Nat.two_pow_pos _
  rw [← hY] at hq1b ⊢
  by_cases hz : h * F64.one + q1 = 0
  · refine ⟨0, by rw [if_pos hz], ?_, ?_⟩
    · omega
    · calc 0 + Y ≤ F64.one := by omega
        _ ≤ (h + 1) * F64.one := Nat.le_mul_of_pos_left _ (by omega)
  · have hB2 : (h + 1) * F64.one = ((h + 1) * 4194304 - 1) * Y + Y := by
      rw [hone]
      have : 1 ≤ (h + 1) * 4194304 := by omega
      calc (h + 1) * (4194304 * Y) = ((h + 1) * 4194304) * Y := by ring
        _ = ((h + 1) * 4194304 - 1 + 1) * Y := by rw [Nat.sub_add_cancel this]
        _ = ((h + 1) * 4194304 - 1) * Y + Y := by ring
    have hrep2 : Representable (((h + 1) * 4194304 - 1) * Y) :=
      ⟨(h + 1) * 4194304 - 1, 1052, by rw [hY], by
        have : (4194304 * 4194304 : Nat) < 2 ^ 53 := by norm_num
        have : (h + 1) * 4194304 ≤ 4194304 * 4194304 := Nat.mul_le_mul_right _ (by omega)
        omega⟩
    have hrep1 : Representable (h * F64.one) :=
      ⟨h, 1074, by rw [one_eq], by
        have : (4194304 : Nat) < 2 ^ 53 := by norm_num
        omega⟩
    have hexp : (h + 1) * F64.one = h * F64.one + F64.one := by ring
    have hbig : (h + 1) * F64.one < 2 ^ 1097 := by
      have h1 : (h + 1) * F64.one ≤ 4194304 * 2 ^ 1074 := by
        rw [one_eq]
        exact Nat.mul_le_mul_right _ (by omega)
      have h2 : (4194304 : Nat) * 2 ^ 1074 < 2 ^ 1097 := by
        rw [show (1097 : Nat) = 23 + 1074 from rfl, pow_add]
        exact Nat.mul_lt_mul_of_pos_right (by norm_num) (Nat.two_pow_pos _)
      omega
    have hlt : (h * F64.one + q1) / 1 < 2 ^ 4096 :=
      div_lt_4096 _ _ 1097 (by omega) (by norm_num)
    have hub := roundRat_le (h * F64.one + q1) 1 _ (by norm_num) hrep2 (by omega) hlt
    have hlb := le_roundRat (h * F64.one + q1) 1 _ (by norm_num) hrep1 (by omega) hlt
    refine ⟨roundRat (h * F64.one + q1) 1, ?_, hlb, by omega⟩
    rw [if_neg hz]
    apply pack_eq_fin _ _ _ _ rfl
    rw [overflowMag_eq]
    have h3 : (2 : Nat) ^ 1097 ≤ 2 ^ 2098 := Nat.pow_le_pow_right (by norm_num) (by norm_num)
    omega

/-- For a non-negative duration that is a whole number of milliseconds,
`int(d.Hours()/24)` is the number of whole days in it. -/
theorem trunc_hours_div_24 (n : Nat) (hn : n ≤ 9223372036854775807) (hms : n % 1000000 = 0) :
    F64.trunc (F64.div (Duration.Hours (n : Int)) (F64.ofInt 24))
      = ((n / 86400000000000 : Nat) : Int) := by
  obtain ⟨Hm, hH, hlo, hhi⟩ := hours_bound n hn hms
  have e4 : F64.ofInt 24 = F64.fin false (24 * F64.one) := ofInt_natCast 24 (by norm_num)
  have hk : n / 86400000000000 = n / 3600000000000 / 24 := by
    rw [Nat.div_div_eq_div_mul]
  have hh : n / 3600000000000 < 4194304 := by omega
  rw [hH, e4, hk]
  generalize n / 3600000000000 = h at hlo hhi hh ⊢
  obtain ⟨Z, hZ⟩ : ∃ Z, Z = 2 ^ 1047 := ⟨_, rfl⟩
  have hZpos : 0 < Z := by rw [hZ]; exact Nat.two_pow_pos _
  have hone : F64.one = 134217728 * Z := by
    rw [one_eq, hZ, show (1074 : Nat) = 27 + 1047 from rfl, pow_add]
    norm_num
  have hY : (2 : Nat) ^ 1052 = 32 * Z := by
    rw [hZ, show (1052 : Nat) = 5 + 1047 from rfl, pow_add]
    norm_num
  rw [hY] at hhi
  have honepos : 0 < F64.one := by omega
  have hne : 24 * F64.one ≠ 0 := by omega
  simp only [F64.div, if_neg hne, Bool.xor_false]
  have hk1 : 24 * (h / 24) ≤ h := Nat.mul_div_le h 24
  have hk2 : h + 1 ≤ 24 * (h / 24 + 1) := by omega
  generalize h / 24 = k at hk1 hk2 ⊢
  have hkb : k < 4194304 := by omega
  -- the bounds, with the products taken as atoms
  have hW : (k + 1) * F64.one = ((k + 1) * 134217728 - 1) * Z + Z := by
    rw [hone]
    have : 1 ≤ (k + 1) * 134217728 := by omega
    calc (k + 1) * (134217728 * Z) = ((k + 1) * 134217728) * Z := by ring
      _ = ((k + 1) * 134217728 - 1 + 1) * Z := by rw [Nat.sub_add_cancel this]
      _ = ((k + 1) * 134217728 - 1) * Z + Z := by ring
  have hU : (h + 1) * F64.one ≤ 24 * ((k + 1) * F64.one) := by
    calc (h + 1) * F64.one ≤ 24 * (k + 1) * F64.one := Nat.mul_le_mul_right _ hk2
      _ = 24 * ((k + 1) * F64.one) := by ring
  have hL : 24 * (k * F64.one) ≤ h * F64.one := by
    calc 24 * (k * F64.one) = 24 * k * F64.one := by ring
      _ ≤ h * F64.one := Nat.mul_le_mul_right _ hk1
  have hrepk : Representable (k * F64.one) :=
    ⟨k, 1074, by rw [one_eq], by
      have : (4194304 : Nat) < 2 ^ 53 := by norm_num
      omega⟩
  have hrep3 : Representable (((k + 1) * 134217728 - 1) * Z) :=
    ⟨(k + 1) * 134217728 - 1, 1047, by rw [hZ], by
      have : (4194304 * 134217728 : Nat) < 2 ^ 53 := by norm_num
      have : (k + 1) * 134217728 ≤ 4194304 * 134217728 := Nat.mul_le_mul_right _ (by omega)
      omega⟩
  have hq : 0 < 24 * F64.one := by omega
  have hle1 : k * F64.one * (24 * F64.one) ≤ Hm * F64.one := by
    calc k * F64.one * (24 * F64.one) = 24 * (k * F64.one) * F64.one := by ring
      _ ≤ Hm * F64.one := Nat.mul_le_mul_right _ (by omega)
  have hle2 : Hm * F64.one ≤ ((k + 1) * 134217728 - 1) * Z * (24 * F64.one) := by
    calc Hm * F64.one ≤ ((k + 1) * 134217728 - 1) * Z * 24 * F64.one :=
          Nat.mul_le_mul_right _ (by omega)
      _ = ((k + 1) * 134217728 - 1) * Z * (24 * F64.one) := by ring
  have hHm : Hm < 2 ^ 1097 := by
    have h1 : (h + 1) * F64.one ≤ 4194304 * 2 ^ 1074 := by
      rw [one_eq]
      exact Nat.mul_le_mul_right _ (by omega)
    have h2 : (4194304 : Nat) * 2 ^ 1074 < 2 ^ 1097 := by
      rw [show (1097 : Nat) = 23 + 1074 from rfl, pow_add]
      exact Nat.mul_lt_mul_of_pos_right (by norm_num) (Nat.two_pow_pos _)
    omega
  have hp : Hm * F64.one < 2 ^ 2171 := by
    rw [one_eq, show (2171 : Nat) = 1097 + 1074 from rfl, pow_add]
    exact Nat.mul_lt_mul_of_pos_right hHm (Nat.two_pow_pos _)
  have hlt := div_lt_4096 (Hm * F64.one) (24 * F64.one) 2171 hp (by norm_num)
  have hub := roundRat_le _ _ _ hq hrep3 hle2 hlt
  have hlb := le_roundRat _ _ _ hq hrepk hle1 hlt
  have hov : roundRat (Hm * F64.one) (24 * F64.one) < F64.overflowMag := by
    rw [overflowMag_eq]
    have h1 : (k + 1) * F64.one ≤ 4194304 * 2 ^ 1074 := by
      rw [one_eq]
      exact Nat.mul_le_mul_right _ (by omega)
    have h2 : (4194304 : Nat) * 2 ^ 1074 < 2 ^ 2098 := by
      rw [show (2098 : Nat) = 1024 + 1074 from rfl, pow_add]
      exact Nat.mul_lt_mul_of_pos_right
        (lt_of_lt_of_le (by norm_num : (4194304 : Nat) < 2 ^ 23)
          (Nat.pow_le_pow_right (by norm_num) (by norm_num))) (Nat.two_pow_pos _)
    omega
  rw [pack_eq_fin _ _ _ _ rfl hov]
  have hdiv : roundRat (Hm * F64.one) (24 * F64.one) / F64.one = k :=
    Nat.div_eq_of_lt_le hlb (by
      show roundRat (Hm * F64.one) (24 * F64.one) < (k + 1) * F64.one
      omega)
  simp only [F64.trunc, hdiv, F64.signed]
  rw [if_pos (by omega)]
  simp

/-- The span `validateDays` computes is the number of whole days from StartDate to EndDate
plus one, whenever EndDate is not before StartDate, the difference fits a
`time.Duration` and is a whole number of milliseconds. -/
theorem duration_eq_whole_days (s e : Time) (h1 : s.unixNano ≤ e.unixNano)
    (h2 : e.unixNano - s.unixNano ≤ maxDuration)
    (h3 : (e.unixNano - s.unixNano) % 1000000 = 0) :
    duration s e = (e.unixNano - s.unixNano) / (24 * Hour) + 1 := by
  obtain ⟨n, hn⟩ : ∃ n : Nat, e.unixNano - s.unixNano = (n : Int) :=
    ⟨(e.unixNano - s.unixNano).toNat, by omega⟩
  have hsub : e.Sub s = (n : Int) := by
    unfold Time.Sub
    simp only [hn]
    rw [if_neg (by rw [← hn]; omega), if_neg (by unfold minDuration; omega)]
  have hn1 : n ≤ 9223372036854775807 := by
    unfold maxDuration at h2
    omega
  have hn2 : n % 1000000 = 0 := by omega
  unfold duration
  rw [hsub, trunc_hours_div_24 n hn1 hn2, hn, hour_eq]
  norm_num

/-- Where the span leaves the whole days: 171 days less one nanosecond hold 170 whole
days, and the float64 hours round up to 4104, so the span is 172; and a range longer than
the largest `time.Duration` (here 400 years from 1700-01-01) is cut to it, so the span is
106752. -/
theorem duration_edge_cases :
    duration jan1 (Time.Unix 1718841599 999999999) = 172 ∧
    (Time.Unix 1718841599 999999999).unixNano - jan1.unixNano = 171 * (24 * Hour) - 1 ∧
    duration (Time.Unix (-8520336000) 0) (Time.Unix 4102444800 0) = 106752 ∧
    ((Time.Unix 4102444800 0).unixNano - (Time.Unix (-8520336000) 0).unixNano) / (24 * Hour)
      = 146097 := by
  decide

/-! ## Validation on creation -/

theorem before_or_equal_iff (t u : Time) :
    (t.Before u || t.Equal u) = true ↔ t.unixNano ≤ u.unixNano := by
  simp [Time.Before, Time.Equal, Int.le_iff_lt_or_eq]

theorem validateDays_eq (days : List Day) (s e : Time) :
    validateDays days s e =
      if (days.length : Int) ≠ duration s e then some (daysError (duration s e) days.length)
      else none := by
  have hlit : ("number of days doesn't match date range: expected " : String)
      = "" ++ "number of days doesn't match date range" ++ ": expected " := by decide
  simp only [validateDays, daysError, errorfWrap, ErrInvalidDays, GoError.Error, hlit,
    String.append_assoc]

theorem validatePaymentPlan_not_pkg (plan : PaymentPlan) (e : GoError)
    (h : validatePaymentPlan plan = some e) :
    ∃ s, e = errorsNew "service.validatePaymentPlan" s := by
  simp only [validatePaymentPlan] at h
  split_ifs at h <;> simp only [Option.some.injEq, reduceCtorEq] at h <;> exact ⟨_, h.symm⟩

theorem createItinerary_result (w : World) (now : Time) (newID : String)
    (req : CreateItineraryReq) :
    (CreateItinerary w now newID req).1 =
      if req.EndDate.unixNano ≤ req.StartDate.unixNano then .error ErrInvalidDateRange
      else if (req.Days.length : Int) ≠ duration req.StartDate req.EndDate then
        .error (daysError (duration req.StartDate req.EndDate) req.Days.length)
      else match validatePaymentPlan req.PaymentPlan with
        | some err => .error err
        | none =>
          if (w.itineraries newID).isSome then .error createError else .ok w.next := by
  unfold CreateItinerary
  by_cases h : req.EndDate.unixNano ≤ req.StartDate.unixNano
  · rw [if_pos ((before_or_equal_iff _ _).2 h), if_pos h]
  · rw [if_neg (by rw [before_or_equal_iff]; exact h), if_neg h, validateDays_eq]
    by_cases hd : (req.Days.length : Int) ≠ duration req.StartDate req.EndDate
    · rw [if_pos hd, if_pos hd]
    · rw [if_neg hd, if_neg hd]
      cases hp : validatePaymentPlan req.PaymentPlan with
      | some err => rfl
      | none =>
        by_cases hs : (w.itineraries newID).isSome = true
        · simp [InMemoryRepo.Create, hs, createError]
        · simp [InMemoryRepo.Create, hs]

/-- C1. A create request whose EndDate is not after its StartDate gets exactly
`ErrInvalidDateRange`, no itinerary and an untouched state, whatever its days and payment
plan are; a request whose EndDate is after its StartDate never gets that error, nor one
that wraps it. -/
theorem createItinerary_date_range (w : World) (now : Time) (newID : String)
    (req : CreateItineraryReq) :
    (req.EndDate.unixNano ≤ req.StartDate.unixNano →
      CreateItinerary w now newID req = (.error ErrInvalidDateRange, w)) ∧
    (req.StartDate.unixNano < req.EndDate.unixNano →
      ∀ e, (CreateItinerary w now newID req).1 = .error e →
        e ≠ ErrInvalidDateRange ∧ e.Is ErrInvalidDateRange = false) := by
  constructor
  · intro h
    have := (before_or_equal_iff req.EndDate req.StartDate).2 h
    simp [CreateItinerary, this]
  · intro h e he
    rw [createItinerary_result, if_neg (by omega)] at he
    split_ifs at he with hd
    · simp only [Except.error.injEq] at he
      subst he
      simp [daysError, GoError.Is, ErrInvalidDateRange, ErrInvalidDays]
    · cases hp : validatePaymentPlan req.PaymentPlan with
      | some err =>
        obtain ⟨s, rfl⟩ := validatePaymentPlan_not_pkg _ _ hp
        simp only [hp, Except.error.injEq] at he
        subst he
        simp [GoError.Is, ErrInvalidDateRange, errorsNew]
      | none =>
        simp only [hp] at he
        cases he
        decide
    · cases hp : validatePaymentPlan req.PaymentPlan with
      | some err =>
        obtain ⟨s, rfl⟩ := validatePaymentPlan_not_pkg _ _ hp
        simp only [hp, Except.error.injEq] at he
        subst he
        simp [GoError.Is, ErrInvalidDateRange, errorsNew]
      | none =>
        simp only [hp] at he
        cases he

/-- C1, at two concrete requests: a trip ending the instant it starts, and a three-day
trip whose days are missing. -/
theorem createItinerary_date_range_witness :
    (jan1.unixNano ≤ jan1.unixNano ∧
      CreateItinerary emptyWorld jan1 "id-1" (requestOf jan1 jan1 [] planExact) =
        (.error ErrInvalidDateRange, emptyWorld)) ∧
    (jan1.unixNano < jan3.unixNano ∧
      daysError 3 0 ≠ ErrInvalidDateRange ∧ (daysError 3 0).Is ErrInvalidDateRange = false) :=
  ⟨⟨by decide,
    (createItinerary_date_range emptyWorld jan1 "id-1" (requestOf jan1 jan1 [] planExact)).1
      (by decide)⟩,
   ⟨by decide,
    (createItinerary_date_range emptyWorld jan1 "id-1" (requestOf jan1 jan3 [] planExact)).2
      (by decide) (daysError 3 0) (by decide)⟩⟩

/-- C2, refuted as stated: from 2024-01-01T00:00:00Z to 2024-06-19T23:59:59.999999999Z
there are 170 whole days, so (EndDate - StartDate in whole days) + 1 is 171, but the float64
hours round up to 4104 and the code expects 172: a request with 171 days fails with the
error wrapping `ErrInvalidDays`, "expected 172 days, got 171", and a request with 172 days
is created. -/
theorem createItinerary_day_count_counterexample :
    jan1.unixNano < jun19Last.unixNano ∧
    (jun19Last.unixNano - jan1.unixNano) / (24 * Hour) + 1 = 171 ∧
    (daysUpTo 171).length = 171 ∧
    (CreateItinerary emptyWorld jan1 "id-1"
        (requestOf jan1 jun19Last (daysUpTo 171) planExact)).1 =
      .error (.wrapError
        "number of days doesn't match date range: expected 172 days, got 171" ErrInvalidDays) ∧
    (daysUpTo 172).length = 172 ∧
    (CreateItinerary emptyWorld jan1 "id-1"
        (requestOf jan1 jun19Last (daysUpTo 172) planExact)).1 = .ok 0 := by
  set_option maxRecDepth 100000 in decide

/-- C2, amended. For a create request whose EndDate is after its StartDate, the result is
an error wrapping `ErrInvalidDays` exactly when the number of days differs from the count
`int(EndDate.Sub(StartDate).Hours()/24) + 1`, whatever the payment plan is; that error
is returned with the state untouched and its text reports the count as expected and the
number of days as got. From 2024-01-01 to 2024-01-03 the day check passes with exactly
three days. The count is the number of whole days from StartDate to EndDate plus one
whenever the difference fits a `time.Duration` and is a whole number of milliseconds. -/
theorem createItinerary_day_count (w : World) (now : Time) (newID : String)
    (req : CreateItineraryReq) (h : req.StartDate.unixNano < req.EndDate.unixNano) :
    ((∃ e, (CreateItinerary w now newID req).1 = .error e ∧ e.Is ErrInvalidDays = true) ↔
      (req.Days.length : Int) ≠ duration req.StartDate req.EndDate) ∧
    ((req.Days.length : Int) ≠ duration req.StartDate req.EndDate →
      CreateItinerary w now newID req =
        (.error (.wrapError ("number of days doesn't match date range: expected "
          ++ toString (duration req.StartDate req.EndDate) ++ " days, got "
          ++ toString req.Days.length) ErrInvalidDays), w)) ∧
    (∀ days : List Day, validateDays days jan1 jan3 = none ↔ days.length = 3) ∧
    (req.EndDate.unixNano - req.StartDate.unixNano ≤ maxDuration →
      (req.EndDate.unixNano - req.StartDate.unixNano) % 1000000 = 0 →
      duration req.StartDate req.EndDate
        = (req.EndDate.unixNano - req.StartDate.unixNano) / (24 * Hour) + 1) := by
  have hb : ¬ req.EndDate.unixNano ≤ req.StartDate.unixNano := by omega
  refine ⟨⟨?_, ?_⟩, ?_, ?_, fun h2 h3 => duration_eq_whole_days _ _ (by omega) h2 h3⟩
  · rintro ⟨e, he, his⟩
    intro hd
    rw [createItinerary_result, if_neg hb, if_neg (by simpa using hd)] at he
    cases hp : validatePaymentPlan req.PaymentPlan with
    | some err =>
      obtain ⟨s, rfl⟩ := validatePaymentPlan_not_pkg _ _ hp
      simp only [hp, Except.error.injEq] at he
      subst he
      simp [GoError.Is, ErrInvalidDays, errorsNew] at his
    | none =>
      simp only [hp] at he
      split_ifs at he
      cases he
      revert his
      decide
  · intro hd
    refine ⟨daysError (duration req.StartDate req.EndDate) req.Days.length, ?_, ?_⟩
    · rw [createItinerary_result, if_neg hb, if_pos hd]
    · simp [daysError, GoError.Is, ErrInvalidDays]
  · intro hd
    have hbb : ¬ ((req.EndDate.Before req.StartDate || req.EndDate.Equal req.StartDate) = true) := by
      rw [before_or_equal_iff]; exact hb
    unfold CreateItinerary
    rw [if_neg hbb, validateDays_eq, if_pos hd]
    rfl
  · intro days
    have h3 : duration jan1 jan3 = 3 := by decide
    rw [validateDays_eq, h3]
    by_cases hl : days.length = 3
    · simp [hl]
    · have : ¬ ((days.length : Int) = 3) := by omega
      simp [hl, this]

/-- C2, at a concrete request: from 2024-01-01 to 2024-01-03 with no days at all. -/
theorem createItinerary_day_count_witness :
    jan1.unixNano < jan3.unixNano ∧
    (CreateItinerary emptyWorld jan1 "id-1" (requestOf jan1 jan3 [] planExact)).1 =
      .error (.wrapError
        "number of days doesn't match date range: expected 3 days, got 0" ErrInvalidDays) := by
  refine ⟨by decide, ?_⟩
  have h := (createItinerary_day_count emptyWorld jan1 "id-1" (requestOf jan1 jan3 [] planExact)
    (by decide)).2.1 (by decide)
  rw [h]
  decide

/-! ## The payment plan -/

theorem pack_isNaN (neg : Bool) (p q : Nat) : (F64.pack neg p q).isNaN = false := by
  unfold F64.pack
  simp only []
  split_ifs <;> rfl

theorem add_isNaN_of_finite (x y : F64) (hx : x.isNaN = false) (hy : y.isFinite = true) :
    (F64.add x y).isNaN = false := by
  cases x with
  | nan => simp [F64.isNaN] at hx
  | inf a => cases y <;> simp_all [F64.add, F64.isNaN, F64.isFinite]
  | fin a m =>
    cases y with
    | fin b n =>
      simp only [F64.add]
      split_ifs
      · rfl
      · exact pack_isNaN _ _ _
    | inf b => simp [F64.isFinite] at hy
    | nan => simp [F64.isFinite] at hy

theorem finite_add_isNaN (x y : F64) (hx : x.isFinite = true) (hy : y.isNaN = false) :
    (F64.add x y).isNaN = false := by
  cases x with
  | nan => simp [F64.isFinite] at hx
  | inf a => simp [F64.isFinite] at hx
  | fin a m =>
    cases y with
    | fin b n =>
      simp only [F64.add]
      split_ifs
      · rfl
      · exact pack_isNaN _ _ _
    | inf b => rfl
    | nan => simp [F64.isNaN] at hy

theorem neg_isNaN (x : F64) (hx : x.isNaN = false) : (F64.neg x).isNaN = false := by
  cases x <;> simp_all [F64.neg, F64.isNaN]

theorem cent_isNaN : cent.isNaN = false := by
  unfold cent F64.ofDecimal
  exact pack_isNaN _ _ _

theorem foldl_add_isNaN (installments : List Installment)
    (h : ∀ inst ∈ installments, inst.Amount.isFinite = true) (acc : F64)
    (hacc : acc.isNaN = false) :
    (installments.foldl (fun sum inst => F64.add sum inst.Amount) acc).isNaN = false := by
  induction installments generalizing acc with
  | nil => simpa using hacc
  | cons inst rest ih =>
    simp only [List.foldl_cons]
    apply ih
    · intro i hi
      exact h i (List.mem_cons_of_mem _ hi)
    · exact add_isNaN_of_finite _ _ hacc (h inst (List.mem_cons_self _ _))

/-- The float64 sum of finite amounts is never NaN (it may overflow to an infinity). -/
theorem sumInstallments_isNaN (installments : List Installment)
    (h : ∀ inst ∈ installments, inst.Amount.isFinite = true) :
    (sumInstallments installments).isNaN = false :=
  foldl_add_isNaN installments h F64.zero rfl

theorem lt_eq_false_iff (x y : F64) (hx : x.isNaN = false) (hy : y.isNaN = false) :
    F64.lt x y = false ↔ F64.le y x = true := by
  simp [F64.lt, F64.le, hx, hy]

theorem le_zero_eq_false_iff (x : F64) (hx : x.isNaN = false) :
    F64.le x F64.zero = false ↔ F64.lt F64.zero x = true := by
  cases x with
  | nan => simp [F64.isNaN] at hx
  | inf a => simp [F64.lt, F64.le, F64.zero, F64.isNaN]
  | fin a m => simp [F64.lt, F64.le, F64.zero, F64.isNaN]

/-- What `validatePaymentPlan` returns, check by check. -/
theorem validatePaymentPlan_eq (plan : PaymentPlan) :
    validatePaymentPlan plan =
      if F64.le plan.AmountDue F64.zero = true then
        some (errorsNew "service.validatePaymentPlan" "total amount must be positive")
      else if plan.Installments = [] then
        some (errorsNew "service.validatePaymentPlan" "at least one installment is required")
      else if F64.lt (sumInstallments plan.Installments) (F64.sub plan.AmountDue cent) = true
          ∨ F64.gt (sumInstallments plan.Installments) (F64.add plan.AmountDue cent) = true then
        some (mismatchError (sumInstallments plan.Installments) plan.AmountDue)
      else none := by
  simp only [validatePaymentPlan, cent, mismatchError, List.length_eq_zero, Bool.or_eq_true]

/-- For finite amounts, `validatePaymentPlan` accepts exactly the plans with a positive
total, an installment, and a float64 sum within the float64 bounds. -/
theorem validatePaymentPlan_none_iff (plan : PaymentPlan) (hf : plan.finite) :
    validatePaymentPlan plan = none ↔
      F64.lt F64.zero plan.AmountDue = true ∧ plan.Installments ≠ [] ∧ withinTolerance plan := by
  obtain ⟨hA, hI⟩ := hf
  have hAn : plan.AmountDue.isNaN = false := by
    cases h : plan.AmountDue <;> simp_all [F64.isFinite, F64.isNaN]
  have hS := sumInstallments_isNaN plan.Installments hI
  have hlo : (F64.sub plan.AmountDue cent).isNaN = false :=
    finite_add_isNaN _ _ hA (neg_isNaN _ cent_isNaN)
  have hhi : (F64.add plan.AmountDue cent).isNaN = false :=
    finite_add_isNaN _ _ hA cent_isNaN
  rw [validatePaymentPlan_eq, withinTolerance, ← le_zero_eq_false_iff _ hAn,
    ← lt_eq_false_iff _ _ hS hlo, ← lt_eq_false_iff _ _ hhi hS]
  by_cases h1 : F64.le plan.AmountDue F64.zero = true
  · simp [h1]
  · by_cases h2 : plan.Installments = []
    · simp [h1, h2]
    · simp only [if_neg h1, if_neg h2, F64.gt]
      by_cases h3 : F64.lt (sumInstallments plan.Installments) (F64.sub plan.AmountDue cent) = true
      · simp [h3]
      · by_cases h4 : F64.lt (F64.add plan.AmountDue cent) (sumInstallments plan.Installments) = true
        · simp [h4]
        · simp [h1, h2, h3, h4]

theorem planExact_finite : planExact.finite := by
  unfold PaymentPlan.finite
  decide

/-- C3, as stated, fails on the code. With AmountDue=1e17 and installments [1e17, 1] the
amounts differ by 1 and the plan is accepted, because the float64 sum absorbs the 1. With
AmountDue=100.00 and the single installment 100.01 the plan is accepted although the two
doubles differ by more than 0.01, in exact arithmetic and also when the difference is
taken in float64. With AmountDue=1000.06 and installments
[400.00, 600.07], one cent apart in decimal, the plan is rejected. -/
theorem validatePaymentPlan_tolerance_counterexample :
    (validatePaymentPlan planHuge = none ∧ ¬ specPaymentPlanOk planHuge) ∧
    (validatePaymentPlan planHair = none ∧ ¬ specPaymentPlanOk planHair ∧
      F64.le (F64.sub (sumInstallments planHair.Installments) planHair.AmountDue) cent
        = false) ∧
    validatePaymentPlan planCent = some (errorsNew "service.validatePaymentPlan"
      "installment amounts (1000.07) don't match total amount (1000.06)") := by
  unfold specPaymentPlanOk
  decide

/-- C3, amended. For a plan whose amounts are finite float64 values, `validatePaymentPlan`
returns no error if and only if AmountDue > 0, the installment list is non-empty, and the
float64 sum of the amounts, accumulated in order from 0, lies between the float64 values
of AmountDue - 0.01 and AmountDue + 0.01, both bounds included; AmountDue=1000.00 with
installments [400.00, 600.00] passes. -/
theorem validatePaymentPlan_passes_iff (plan : PaymentPlan) (hf : plan.finite) :
    (validatePaymentPlan plan = none ↔
      F64.lt F64.zero plan.AmountDue = true ∧ plan.Installments ≠ [] ∧
        F64.le (F64.sub plan.AmountDue cent) (sumInstallments plan.Installments) = true ∧
        F64.le (sumInstallments plan.Installments) (F64.add plan.AmountDue cent) = true) ∧
    validatePaymentPlan planExact = none :=
  ⟨validatePaymentPlan_none_iff plan hf, by decide⟩

/-- C3 amended, at AmountDue=1000.00 with installments [400.00, 600.00]. -/
theorem validatePaymentPlan_passes_iff_witness :
    planExact.finite ∧ F64.lt F64.zero planExact.AmountDue = true ∧ planExact.Installments ≠ [] ∧
      F64.le (F64.sub planExact.AmountDue cent) (sumInstallments planExact.Installments) = true ∧
      F64.le (sumInstallments planExact.Installments) (F64.add planExact.AmountDue cent) = true :=
  ⟨planExact_finite,
    (validatePaymentPlan_passes_iff planExact planExact_finite).1.1
      (validatePaymentPlan_passes_iff planExact planExact_finite).2⟩

/-- C4. `validatePaymentPlan` reports the first violated condition: the non-positive-total
error whenever `AmountDue <= 0`, also when the list is empty; otherwise the no-installments
error when the list is empty; otherwise any error it returns is the amount mismatch, whose
text shows the float64 sum and then AmountDue, both with two decimals. AmountDue=1000.00
with installments [400.00, 599.00] fails with the mismatch of 999.00 against 1000.00. -/
theorem validatePaymentPlan_first_violation (plan : PaymentPlan) :
    (F64.le plan.AmountDue F64.zero = true →
      validatePaymentPlan plan =
        some (errorsNew "service.validatePaymentPlan" "total amount must be positive")) ∧
    (F64.le plan.AmountDue F64.zero = false → plan.Installments = [] →
      validatePaymentPlan plan =
        some (errorsNew "service.validatePaymentPlan" "at least one installment is required")) ∧
    (F64.le plan.AmountDue F64.zero = false → plan.Installments ≠ [] →
      ∀ e, validatePaymentPlan plan = some e →
        e = errorsNew "service.validatePaymentPlan"
          ("installment amounts (" ++ F64.fmt2 (sumInstallments plan.Installments)
            ++ ") don't match total amount (" ++ F64.fmt2 plan.AmountDue ++ ")")) ∧
    validatePaymentPlan planShort = some (errorsNew "service.validatePaymentPlan"
      "installment amounts (999.00) don't match total amount (1000.00)") := by
  refine ⟨?_, ?_, ?_, by decide⟩
  · intro h
    rw [validatePaymentPlan_eq, if_pos h]
  · intro h hl
    rw [validatePaymentPlan_eq, if_neg (by simp [h]), if_pos hl]
  · intro h hl e he
    rw [validatePaymentPlan_eq, if_neg (by simp [h]), if_neg hl] at he
    split_ifs at he
    simp only [Option.some.injEq] at he
    exact he.symm

/-- C4, at three concrete plans: a total of -5.00 with no installments, a total of 10.00
with no installments, and 1000.00 against [400.00, 599.00]. -/
theorem validatePaymentPlan_first_violation_witness :
    validatePaymentPlan (planOf (F64.ofDecimal true 5 1) []) =
      some (errorsNew "service.validatePaymentPlan" "total amount must be positive") ∧
    validatePaymentPlan (planOf (F64.ofDecimal false 10 1) []) =
      some (errorsNew "service.validatePaymentPlan" "at least one installment is required") ∧
    mismatchError (F64.ofDecimal false 999 1) (F64.ofDecimal false 1000 1) =
      errorsNew "service.validatePaymentPlan"
        ("installment amounts (" ++ F64.fmt2 (sumInstallments planShort.Installments)
          ++ ") don't match total amount (" ++ F64.fmt2 planShort.AmountDue ++ ")") :=
  ⟨(validatePaymentPlan_first_violation (planOf (F64.ofDecimal true 5 1) [])).1 (by decide),
   (validatePaymentPlan_first_violation (planOf (F64.ofDecimal false 10 1) [])).2.1
     (by decide) (by decide),
   (validatePaymentPlan_first_violation planShort).2.2.1 (by decide) (by decide) _ (by decide)⟩

/-! ## Creation as a whole -/

/-- The float64 tolerance seen from `CreateItinerary`: a request for 2024-01-01 to
2024-01-03 with three days and AmountDue=1e17 against installments [1e17, 1] is created
although its amounts differ by 1; the same request with AmountDue=1000.06 against
[400.00, 600.07], one cent apart in decimal, is rejected with the amount mismatch. -/
theorem createItinerary_float_tolerance_examples :
    ((CreateItinerary emptyWorld jan1 "id-1" (requestOf jan1 jan3 threeDays planHuge)).1 = .ok 0 ∧
      emptyWorld.itineraries "id-1" = none ∧
      ¬ specCreateOk (requestOf jan1 jan3 threeDays planHuge)) ∧
    (CreateItinerary emptyWorld jan1 "id-1" (requestOf jan1 jan3 threeDays planCent)).1 =
      .error (errorsNew "service.validatePaymentPlan"
        "installment amounts (1000.07) don't match total amount (1000.06)") := by
  unfold specCreateOk specPaymentPlanOk
  decide

/-- C5, refuted as stated. A request for 2024-01-01 to 2024-01-03 with three days and
AmountDue=1e17 against installments [1e17, 1] is created although the installments do not
sum to AmountDue within 0.01. A request for 2024-01-01T00:00:00Z to
2024-06-19T23:59:59.999999999Z with 171 days, as many as whole days plus one, and
AmountDue=1000.00 against [400.00, 600.00] satisfies the five invariants and is rejected.
A request for 2024-01-01T23:00:00Z to 2024-01-02T01:00:00Z with two days, as many as
calendar days, and the same plan is rejected too. The store holds no itinerary. -/
theorem createItinerary_invariants_counterexample :
    emptyWorld.itineraries "id-1" = none ∧
    ((CreateItinerary emptyWorld jan1 "id-1" (requestOf jan1 jan3 threeDays planHuge)).1
        = .ok 0 ∧
      ¬ specPaymentPlanOk planHuge ∧
      ¬ specCreateOk (requestOf jan1 jan3 threeDays planHuge)) ∧
    (specCreateOk (requestOf jan1 jun19Last (daysUpTo 171) planExact) ∧
      (CreateItinerary emptyWorld jan1 "id-1"
          (requestOf jan1 jun19Last (daysUpTo 171) planExact)).1 =
        .error (.wrapError
          "number of days doesn't match date range: expected 172 days, got 171"
          ErrInvalidDays)) ∧
    (jan1Late.unixNano < jan2Early.unixNano ∧
      specInclusiveDaySpan 0 jan1Late jan2Early = 2 ∧
      specPaymentPlanOk planExact ∧
      (CreateItinerary emptyWorld jan1 "id-1"
          (requestOf jan1Late jan2Early [dayOf 1 "Arrival", dayOf 2 "Departure"]
            planExact)).1 =
        .error (.wrapError
          "number of days doesn't match date range: expected 1 days, got 2"
          ErrInvalidDays)) := by
  unfold specCreateOk specPaymentPlanOk
  set_option maxRecDepth 100000 in decide

/-- C5, amended. When the store does not hold the new ID and the amounts are finite float64
values, as decoded JSON numbers are, `CreateItinerary` succeeds if and only if EndDate is
strictly after StartDate, the number of days equals the count
`int(EndDate.Sub(StartDate).Hours()/24) + 1`, AmountDue > 0, there is an installment, and
the installments sum to AmountDue within 0.01 as float64 computes it (the float64 sum lies
between the float64 values of AmountDue - 0.01 and AmountDue + 0.01); when it fails, the
error is that of the first violated check in the order date range, day count, payment
plan. -/
theorem createItinerary_succeeds_iff (w : World) (now : Time) (newID : String)
    (req : CreateItineraryReq) (hid : w.itineraries newID = none)
    (hf : req.PaymentPlan.finite) :
    ((∃ p, (CreateItinerary w now newID req).1 = .ok p) ↔
      req.StartDate.unixNano < req.EndDate.unixNano ∧
      (req.Days.length : Int) = duration req.StartDate req.EndDate ∧
      F64.lt F64.zero req.PaymentPlan.AmountDue = true ∧
      req.PaymentPlan.Installments ≠ [] ∧
      withinTolerance req.PaymentPlan) ∧
    (req.EndDate.unixNano ≤ req.StartDate.unixNano →
      (CreateItinerary w now newID req).1 = .error ErrInvalidDateRange) ∧
    (req.StartDate.unixNano < req.EndDate.unixNano →
      (req.Days.length : Int) ≠ duration req.StartDate req.EndDate →
      (CreateItinerary w now newID req).1 =
        .error (daysError (duration req.StartDate req.EndDate) req.Days.length)) ∧
    (req.StartDate.unixNano < req.EndDate.unixNano →
      (req.Days.length : Int) = duration req.StartDate req.EndDate →
      ∀ e, validatePaymentPlan req.PaymentPlan = some e →
        (CreateItinerary w now newID req).1 = .error e) := by
  have hres := createItinerary_result w now newID req
  have hpp := validatePaymentPlan_none_iff req.PaymentPlan hf
  refine ⟨⟨?_, ?_⟩, ?_, ?_, ?_⟩
  · rintro ⟨p, hp⟩
    rw [hres] at hp
    by_cases h1 : req.EndDate.unixNano ≤ req.StartDate.unixNano
    · rw [if_pos h1] at hp
      cases hp
    · by_cases h2 : (req.Days.length : Int) ≠ duration req.StartDate req.EndDate
      · rw [if_neg h1, if_pos h2] at hp
        cases hp
      · cases hv : validatePaymentPlan req.PaymentPlan with
        | some err =>
          rw [if_neg h1, if_neg h2, hv] at hp
          cases hp
        | none => exact ⟨by omega, by simpa using h2, hpp.1 hv⟩
  · rintro ⟨h1, h2, h3⟩
    refine ⟨w.next, ?_⟩
    rw [hres, if_neg (by omega), if_neg (by simp [h2]), hpp.2 h3]
    simp [hid]
  · intro h1
    rw [hres, if_pos h1]
  · intro h1 h2
    rw [hres, if_neg (by omega), if_pos h2]
  · intro h1 h2 e he
    rw [hres, if_neg (by omega), if_neg (by simp [h2]), he]

/-- C5, at the request for 2024-01-01 to 2024-01-03 with three days and
AmountDue=1000.00 against [400.00, 600.00]. -/
theorem createItinerary_succeeds_iff_witness :
    emptyWorld.itineraries "id-1" = none ∧ planExact.finite ∧
    ∃ p, (CreateItinerary emptyWorld jan1 "id-1" (requestOf jan1 jan3 threeDays planExact)).1
      = .ok p :=
  ⟨rfl, planExact_finite,
    (createItinerary_succeeds_iff emptyWorld jan1 "id-1"
      (requestOf jan1 jan3 threeDays planExact) rfl planExact_finite).1.2
      ⟨by decide, by decide, by decide, by decide, by unfold withinTolerance; decide⟩⟩

/-! ## Updates -/

theorem write_heap_self (w : World) (p : Nat) (f : Itinerary → Itinerary) :
    (w.write p f).heap p = f (w.heap p) := by
  simp [World.write]

theorem assign_itineraries {α : Type} (w : World) (p : Nat) (o : Option α)
    (set : α → Itinerary → Itinerary) : (assign w p o set).itineraries = w.itineraries := by
  cases o <;> rfl

theorem assign_heap_self {α : Type} (w : World) (p : Nat) (o : Option α)
    (set : α → Itinerary → Itinerary) :
    (assign w p o set).heap p = setIf o set (w.heap p) := by
  cases o
  · rfl
  · exact write_heap_self _ _ _

theorem setIf_Title (o : Option (String)) (it : Itinerary) :
    setIf o (fun v it => { it with Title := v }) it = { it with Title := o.getD it.Title } := by
  cases o <;> rfl

theorem setIf_Destination (o : Option (String)) (it : Itinerary) :
    setIf o (fun v it => { it with Destination := v }) it = { it with Destination := o.getD it.Destination } := by
  cases o <;> rfl

theorem setIf_StartDate (o : Option (Time)) (it : Itinerary) :
    setIf o (fun v it => { it with StartDate := v }) it = { it with StartDate := o.getD it.StartDate } := by
  cases o <;> rfl

theorem setIf_EndDate (o : Option (Time)) (it : Itinerary) :
    setIf o (fun v it => { it with EndDate := v }) it = { it with EndDate := o.getD it.EndDate } := by
  cases o <;> rfl

theorem setIf_Days (o : Option (List Day)) (it : Itinerary) :
    setIf o (fun v it => { it with Days := v }) it = { it with Days := o.getD it.Days } := by
  cases o <;> rfl

theorem setIf_Hotels (o : Option (List Hotel)) (it : Itinerary) :
    setIf o (fun v it => { it with Hotels := v }) it = { it with Hotels := o.getD it.Hotels } := by
  cases o <;> rfl

theorem setIf_Flights (o : Option (List Flight)) (it : Itinerary) :
    setIf o (fun v it => { it with Flights := v }) it = { it with Flights := o.getD it.Flights } := by
  cases o <;> rfl

theorem setIf_Transfers (o : Option (List Transfer)) (it : Itinerary) :
    setIf o (fun v it => { it with Transfers := v }) it = { it with Transfers := o.getD it.Transfers } := by
  cases o <;> rfl

theorem setIf_PaymentPlan (o : Option (PaymentPlan)) (it : Itinerary) :
    setIf o (fun v it => { it with PaymentPlan := v }) it = { it with PaymentPlan := o.getD it.PaymentPlan } := by
  cases o <;> rfl

theorem setIf_Inclusions (o : Option (List String)) (it : Itinerary) :
    setIf o (fun v it => { it with Inclusions := v }) it = { it with Inclusions := o.getD it.Inclusions } := by
  cases o <;> rfl

theorem setIf_Exclusions (o : Option (List String)) (it : Itinerary) :
    setIf o (fun v it => { it with Exclusions := v }) it = { it with Exclusions := o.getD it.Exclusions } := by
  cases o <;> rfl

theorem applyUpdate_heap (w : World) (p : Nat) (now : Time) (req : UpdateItineraryReq) :
    (applyUpdate w p now req).heap p = mergeUpdate (w.heap p) now req := by
  simp only [applyUpdate, write_heap_self, assign_heap_self, setIf_Title, setIf_Destination, setIf_StartDate, setIf_EndDate, setIf_Days, setIf_Hotels, setIf_Flights, setIf_Transfers, setIf_PaymentPlan, setIf_Inclusions, setIf_Exclusions]
  rfl

theorem applyUpdate_itineraries (w : World) (p : Nat) (now : Time) (req : UpdateItineraryReq) :
    (applyUpdate w p now req).itineraries = w.itineraries := by
  simp only [applyUpdate, assign_itineraries, World.write]

theorem setKey_stored (w : World) (id : String) (p : Nat) :
    (w.setKey id p).stored id = some (w.heap p) := by
  simp [World.setKey, World.stored]

/-- What `UpdateItinerary` does for an ID the store holds. -/
theorem updateItinerary_eq (w : World) (now : Time) (id : String) (req : UpdateItineraryReq)
    (p : Nat) (h : w.itineraries id = some p) :
    UpdateItinerary w now id req =
      if (mergeUpdate (w.heap p) now req).EndDate.unixNano
          ≤ (mergeUpdate (w.heap p) now req).StartDate.unixNano then
        (.error ErrInvalidDateRange, applyUpdate w p now req)
      else match validatePaymentPlan (mergeUpdate (w.heap p) now req).PaymentPlan with
        | some err => (.error err, applyUpdate w p now req)
        | none => (.ok p, (applyUpdate w p now req).setKey id p) := by
  unfold UpdateItinerary
  simp only [InMemoryRepo.GetByID, h, applyUpdate_heap]
  by_cases hd : (mergeUpdate (w.heap p) now req).EndDate.unixNano
      ≤ (mergeUpdate (w.heap p) now req).StartDate.unixNano
  · rw [if_pos ((before_or_equal_iff _ _).2 hd), if_pos hd]
  · rw [if_neg (by rw [before_or_equal_iff]; exact hd), if_neg hd]
    cases hv : validatePaymentPlan (mergeUpdate (w.heap p) now req).PaymentPlan with
    | some err => rfl
    | none => simp [InMemoryRepo.Update, applyUpdate_itineraries, h]

/-- What the stored itinerary is after a rejected update: the merge, not the old value. -/
theorem updateItinerary_rejected_stored (w : World) (now : Time) (id : String)
    (req : UpdateItineraryReq) (p : Nat) (h : w.itineraries id = some p) (e : GoError)
    (he : (UpdateItinerary w now id req).1 = .error e) :
    (UpdateItinerary w now id req).2.stored id = some (mergeUpdate (w.heap p) now req) := by
  rw [updateItinerary_eq w now id req p h] at he ⊢
  split_ifs with hd
  · simp [World.stored, applyUpdate_itineraries, applyUpdate_heap, h]
  · rw [if_neg hd] at he
    cases hv : validatePaymentPlan (mergeUpdate (w.heap p) now req).PaymentPlan with
    | some err => simp [World.stored, applyUpdate_itineraries, applyUpdate_heap, h]
    | none => rw [hv] at he; cases he

/-- C6, where the code departs from the claim. The itinerary "id-1" is stored with
EndDate 2024-01-03; an update supplying only EndDate = 2024-01-01, its StartDate, is
rejected with `ErrInvalidDateRange`, and afterwards the store holds "id-1" with EndDate
2024-01-01 and the UpdatedAt of the rejected request. Likewise an update supplying only
the payment plan 1000.00 against [400.00, 599.00] is rejected with the amount mismatch,
and afterwards the store holds "id-1" with that plan. -/
theorem updateItinerary_rejected_update_overwrites :
    (storedWorld.stored "id-1").map (fun it => (it.EndDate, it.UpdatedAt, it.PaymentPlan))
      = some (jan3, jan1, planExact) ∧
    (UpdateItinerary storedWorld feb1 "id-1" (onlyEndDate jan1)).1 = .error ErrInvalidDateRange ∧
    ((UpdateItinerary storedWorld feb1 "id-1" (onlyEndDate jan1)).2.stored "id-1").map
      (fun it => (it.EndDate, it.UpdatedAt)) = some (jan1, feb1) ∧
    (UpdateItinerary storedWorld feb1 "id-1" (onlyPaymentPlan planShort)).1 =
      .error (errorsNew "service.validatePaymentPlan"
        "installment amounts (999.00) don't match total amount (1000.00)") ∧
    ((UpdateItinerary storedWorld feb1 "id-1" (onlyPaymentPlan planShort)).2.stored "id-1").map
      (fun it => (it.PaymentPlan, it.UpdatedAt)) = some (planShort, feb1) := by
  decide

/-- C7. After a successful `UpdateItinerary` the store holds, under the same ID and at the
returned pointer, an itinerary in which each of Title, Destination, StartDate, EndDate,
Days, Hotels, Flights, Transfers, PaymentPlan, Inclusions and Exclusions is the value of
the request when it supplies one and the previous stored value when it omits it; ID,
UserID and CreatedAt are the previous ones and UpdatedAt is the instant of the update. -/
theorem updateItinerary_merges (w w1 : World) (now : Time) (id : String)
    (req : UpdateItineraryReq) (p : Nat)
    (h : UpdateItinerary w now id req = (.ok p, w1)) :
    ∃ old new, w.stored id = some old ∧ w1.stored id = some new ∧ w1.heap p = new ∧
      new.Title = req.Title.getD old.Title ∧
      new.Destination = req.Destination.getD old.Destination ∧
      new.StartDate = req.StartDate.getD old.StartDate ∧
      new.EndDate = req.EndDate.getD old.EndDate ∧
      new.Days = req.Days.getD old.Days ∧
      new.Hotels = req.Hotels.getD old.Hotels ∧
      new.Flights = req.Flights.getD old.Flights ∧
      new.Transfers = req.Transfers.getD old.Transfers ∧
      new.PaymentPlan = req.PaymentPlan.getD old.PaymentPlan ∧
      new.Inclusions = req.Inclusions.getD old.Inclusions ∧
      new.Exclusions = req.Exclusions.getD old.Exclusions ∧
      new.ID = old.ID ∧ new.UserID = old.UserID ∧ new.CreatedAt = old.CreatedAt ∧
      new.UpdatedAt = now := by
  cases hq : w.itineraries id with
  | none =>
    simp only [UpdateItinerary, InMemoryRepo.GetByID, hq] at h
    split_ifs at h <;> cases h
  | some q =>
    rw [updateItinerary_eq w now id req q hq] at h
    split_ifs at h with hd
    · cases h
    · cases hv : validatePaymentPlan (mergeUpdate (w.heap q) now req).PaymentPlan with
      | some err => rw [hv] at h; cases h
      | none =>
        rw [hv] at h
        simp only [Prod.mk.injEq, Except.ok.injEq] at h
        obtain ⟨rfl, rfl⟩ := h
        refine ⟨w.heap q, mergeUpdate (w.heap q) now req, ?_, ?_, ?_, ?_⟩
        · simp [World.stored, hq]
        · rw [setKey_stored, applyUpdate_heap]
        · show (applyUpdate w q now req).heap q = _
          rw [applyUpdate_heap]
        · exact ⟨rfl, rfl, rfl, rfl, rfl, rfl, rfl, rfl, rfl, rfl, rfl, rfl, rfl, rfl, rfl⟩

/-- C7, at the update of "id-1" that supplies only EndDate = 2024-01-05. -/
theorem updateItinerary_merges_witness :
    ∃ old new, storedWorld.stored "id-1" = some old ∧
      (UpdateItinerary storedWorld feb1 "id-1" (onlyEndDate jan5)).2.stored "id-1" = some new ∧
      new.EndDate = jan5 ∧ new.StartDate = old.StartDate ∧ new.Days = old.Days ∧
      new.ID = old.ID ∧ new.CreatedAt = old.CreatedAt ∧ new.UpdatedAt = feb1 := by
  have h : UpdateItinerary storedWorld feb1 "id-1" (onlyEndDate jan5) =
      (.ok 0, (UpdateItinerary storedWorld feb1 "id-1" (onlyEndDate jan5)).2) := by
    have h1 : (UpdateItinerary storedWorld feb1 "id-1" (onlyEndDate jan5)).1 = .ok 0 := by decide
    exact Prod.ext h1 rfl
  obtain ⟨old, new, h1, h2, _, _, _, h6, h7, h8, _, _, _, _, _, _, h15, _, h17, h18⟩ :=
    updateItinerary_merges storedWorld _ feb1 "id-1" (onlyEndDate jan5) 0 h
  exact ⟨old, new, h1, h2, h7, h6, h8, h15, h17, h18⟩

/-- C8, refuted as stated: on the stored itinerary "id-1", the update that supplies only
the payment plan AmountDue=1e17 with installments [1e17, 1] succeeds and stores that plan,
although its installments do not sum to AmountDue within 0.01; so does the update with
AmountDue=100.00 and the single installment 100.01, whose doubles differ by more than
0.01. -/
theorem updateItinerary_invariants_counterexample :
    storedWorld.itineraries "id-1" = some 0 ∧
    ((UpdateItinerary storedWorld feb1 "id-1" (onlyPaymentPlan planHuge)).1 = .ok 0 ∧
      ((UpdateItinerary storedWorld feb1 "id-1" (onlyPaymentPlan planHuge)).2.stored
        "id-1").map (fun it => it.PaymentPlan) = some planHuge ∧
      ¬ specPaymentPlanOk planHuge) ∧
    ((UpdateItinerary storedWorld feb1 "id-1" (onlyPaymentPlan planHair)).1 = .ok 0 ∧
      ((UpdateItinerary storedWorld feb1 "id-1" (onlyPaymentPlan planHair)).2.stored
        "id-1").map (fun it => it.PaymentPlan) = some planHair ∧
      ¬ specPaymentPlanOk planHair) := by
  unfold specPaymentPlanOk
  decide

/-- C8, amended. For an ID the store holds, `UpdateItinerary` succeeds if and only if,
after the merge, EndDate is strictly after StartDate and `validatePaymentPlan` accepts the
payment plan, which for finite amounts means AmountDue > 0, an installment, and a float64
sum between the float64 values of AmountDue - 0.01 and AmountDue + 0.01; the number of days
is not consulted. The stored itinerary "id-1" passes the date, day-count and payment-plan
checks, the update supplying only EndDate = 2024-01-05 succeeds, and it leaves "id-1"
stored with three days for a day count of five. -/
theorem updateItinerary_succeeds_iff (w : World) (now : Time) (id : String)
    (req : UpdateItineraryReq) (p : Nat) (h : w.itineraries id = some p) :
    ((∃ q, (UpdateItinerary w now id req).1 = .ok q) ↔
      (req.StartDate.getD (w.heap p).StartDate).unixNano
          < (req.EndDate.getD (w.heap p).EndDate).unixNano ∧
        validatePaymentPlan (req.PaymentPlan.getD (w.heap p).PaymentPlan) = none) ∧
    ((req.PaymentPlan.getD (w.heap p).PaymentPlan).finite →
      (validatePaymentPlan (req.PaymentPlan.getD (w.heap p).PaymentPlan) = none ↔
        F64.lt F64.zero (req.PaymentPlan.getD (w.heap p).PaymentPlan).AmountDue = true ∧
        (req.PaymentPlan.getD (w.heap p).PaymentPlan).Installments ≠ [] ∧
        withinTolerance (req.PaymentPlan.getD (w.heap p).PaymentPlan))) ∧
    ((storedWorld.stored "id-1").map (fun it =>
        decide (it.StartDate.unixNano < it.EndDate.unixNano) &&
        decide ((it.Days.length : Int) = duration it.StartDate it.EndDate) &&
        decide (validatePaymentPlan it.PaymentPlan = none)) = some true ∧
      (UpdateItinerary storedWorld feb1 "id-1" (onlyEndDate jan5)).1 = .ok 0 ∧
      ((UpdateItinerary storedWorld feb1 "id-1" (onlyEndDate jan5)).2.stored "id-1").map
        (fun it => ((it.Days.length : Int), duration it.StartDate it.EndDate)) = some (3, 5)) := by
  refine ⟨?_, fun hf => validatePaymentPlan_none_iff _ hf, by decide⟩
  rw [updateItinerary_eq w now id req p h]
  show _ ↔ (mergeUpdate (w.heap p) now req).StartDate.unixNano
      < (mergeUpdate (w.heap p) now req).EndDate.unixNano ∧
    validatePaymentPlan (mergeUpdate (w.heap p) now req).PaymentPlan = none
  by_cases hd : (mergeUpdate (w.heap p) now req).EndDate.unixNano
      ≤ (mergeUpdate (w.heap p) now req).StartDate.unixNano
  · rw [if_pos hd]
    constructor
    · rintro ⟨q, hq⟩; cases hq
    · rintro ⟨h1, _⟩; omega
  · rw [if_neg hd]
    cases hv : validatePaymentPlan (mergeUpdate (w.heap p) now req).PaymentPlan with
    | some err =>
      constructor
      · rintro ⟨q, hq⟩; cases hq
      · rintro ⟨_, h2⟩; cases h2
    | none => exact ⟨fun _ => ⟨by omega, rfl⟩, fun _ => ⟨p, rfl⟩⟩

/-- C8, at the update of "id-1" that supplies only EndDate = 2024-01-05. -/
theorem updateItinerary_succeeds_iff_witness :
    storedWorld.itineraries "id-1" = some 0 ∧
    ∃ q, (UpdateItinerary storedWorld feb1 "id-1" (onlyEndDate jan5)).1 = .ok q :=
  ⟨by decide,
    (updateItinerary_succeeds_iff storedWorld feb1 "id-1" (onlyEndDate jan5) 0 (by decide)).1.2
      ⟨by decide, by decide⟩⟩

/-! ## Missing itineraries -/

/-- C9, where the code departs from the claim. On the empty store and the ID "missing",
the error of the store is not `repository.ErrNotFound`, so `GetItinerary`,
`UpdateItinerary` and `DeleteItinerary` take the other branch and return a wrapped error
whose text is not "itinerary not found"; the update handler then answers 400 and the
delete handler 500. -/
theorem missing_itinerary_is_not_recognised :
    (repoNotFound "repository.GetByID").Is ErrNotFound = false ∧
    GetItinerary emptyWorld "missing" =
      .error (.wrapError "failed to get itinerary: itinerary not found"
        (repoNotFound "repository.GetByID")) ∧
    (UpdateItinerary emptyWorld feb1 "missing" (onlyEndDate jan5)).1 =
      .error (.wrapError "failed to get itinerary: itinerary not found"
        (repoNotFound "repository.GetByID")) ∧
    (DeleteItinerary emptyWorld "missing").1 =
      some (.wrapError "failed to delete itinerary: itinerary not found"
        (repoNotFound "repository.Delete")) ∧
    RouteController.updateErrorStatus (.wrapError "failed to get itinerary: itinerary not found"
        (repoNotFound "repository.GetByID")) = 400 ∧
    RouteController.deleteErrorStatus (.wrapError
        "failed to delete itinerary: itinerary not found"
        (repoNotFound "repository.Delete")) = 500 := by
  decide

/-- The same for every state and every ID the store does not hold. -/
theorem missing_itinerary_errors (w : World) (now : Time) (id : String)
    (req : UpdateItineraryReq) (h : w.itineraries id = none) :
    GetItinerary w id = .error (.wrapError "failed to get itinerary: itinerary not found"
        (repoNotFound "repository.GetByID")) ∧
    UpdateItinerary w now id req =
      (.error (.wrapError "failed to get itinerary: itinerary not found"
        (repoNotFound "repository.GetByID")), w) ∧
    DeleteItinerary w id =
      (some (.wrapError "failed to delete itinerary: itinerary not found"
        (repoNotFound "repository.Delete")), w) := by
  have h1 : (errorsNew "repository.GetByID" "itinerary not found").Is ErrNotFound = false := by
    decide
  have h2 : (errorsNew "repository.Delete" "itinerary not found").Is ErrNotFound = false := by
    decide
  have e1 : errorfWrap "failed to get itinerary: "
      (errorsNew "repository.GetByID" "itinerary not found") ""
      = .wrapError "failed to get itinerary: itinerary not found"
        (repoNotFound "repository.GetByID") := by decide
  have e2 : errorfWrap "failed to delete itinerary: "
      (errorsNew "repository.Delete" "itinerary not found") ""
      = .wrapError "failed to delete itinerary: itinerary not found"
        (repoNotFound "repository.Delete") := by decide
  refine ⟨?_, ?_, ?_⟩
  · simp only [GetItinerary, InMemoryRepo.GetByID, h, h1, e1]
    rfl
  · simp only [UpdateItinerary, InMemoryRepo.GetByID, h, h1, e1]
    rfl
  · simp only [DeleteItinerary, InMemoryRepo.Delete, h, h2, e2, Option.isNone_none, if_true]
    rfl

/-! ## The order of the sections -/

theorem IsDrawer.id : IsDrawer (fun pdf => pdf) :=
  ⟨fun pdf => (List.append_nil pdf).symm, fun _ h => by cases h⟩

theorem IsDrawer.comp {f g : Fpdf → Fpdf} (hf : IsDrawer f) (hg : IsDrawer g) :
    IsDrawer (fun pdf => g (f pdf)) := by
  refine ⟨fun pdf => ?_, ?_⟩
  · show g (f pdf) = pdf ++ g (f [])
    rw [hg.1 (f pdf), hg.1 (f []), hf.1 pdf, List.append_assoc]
  · show NoAddPage (g (f []))
    rw [hg.1 (f [])]
    intro c hc
    rcases List.mem_append.1 hc with h | h
    · exact hf.2 c h
    · exact hg.2 c h

theorem IsDrawer.call {f : Fpdf → Fpdf} (hf : IsDrawer f) (c : PdfCall)
    (hc : c ≠ PdfCall.AddPage) : IsDrawer (fun pdf => (f pdf).call c) := by
  refine IsDrawer.comp hf (g := fun pdf => pdf.call c) ⟨fun pdf => rfl, ?_⟩
  intro d hd
  have : d = c := by simpa [Fpdf.call] using hd
  rw [this]
  exact hc

theorem IsDrawer.when {f g : Fpdf → Fpdf} (c : Prop) [Decidable c] (hf : IsDrawer f)
    (hg : IsDrawer g) : IsDrawer (fun pdf => if c then g (f pdf) else f pdf) := by
  by_cases h : c
  · simpa [h] using IsDrawer.comp hf hg
  · simpa [h] using hf

theorem foldl_append_of_drawer {α : Type} (step : Fpdf → α → Fpdf)
    (hs : ∀ x, IsDrawer (fun pdf => step pdf x)) (xs : List α) (pdf : Fpdf) :
    xs.foldl step pdf = pdf ++ xs.foldl step [] := by
  induction xs generalizing pdf with
  | nil => simp
  | cons x rest ih =>
    simp only [List.foldl_cons]
    have h1 : step pdf x = pdf ++ step [] x := (hs x).1 pdf
    rw [ih (step pdf x), ih (step [] x), h1, List.append_assoc]

theorem foldl_noAddPage {α : Type} (step : Fpdf → α → Fpdf)
    (hs : ∀ x, IsDrawer (fun pdf => step pdf x)) (xs : List α) :
    NoAddPage (xs.foldl step []) := by
  induction xs with
  | nil => intro c h; cases h
  | cons x rest ih =>
    simp only [List.foldl_cons]
    rw [foldl_append_of_drawer step hs rest (step [] x)]
    intro c hc
    rcases List.mem_append.1 hc with h | h
    · exact (hs x).2 c h
    · exact ih c h

theorem IsDrawer.foldl {α : Type} {f : Fpdf → Fpdf} (hf : IsDrawer f) (step : Fpdf → α → Fpdf)
    (hs : ∀ x, IsDrawer (fun pdf => step pdf x)) (xs : List α) :
    IsDrawer (fun pdf => xs.foldl step (f pdf)) :=
  IsDrawer.comp hf (g := fun pdf => xs.foldl step pdf)
    ⟨fun pdf => foldl_append_of_drawer step hs xs pdf, foldl_noAddPage step hs xs⟩

theorem addSectionTitle_drawer (title : String) :
    IsDrawer (fun pdf => PDFService.addSectionTitle pdf title) := by
  simp only [PDFService.addSectionTitle]
  repeat (first | refine IsDrawer.call ?_ _ (by intro h; cases h) | exact IsDrawer.id)

theorem addTitlePage_drawer (s : PDFService) (it : Itinerary) :
    IsDrawer (fun pdf => s.addTitlePage pdf it) := by
  simp only [PDFService.addTitlePage]
  repeat (first | refine IsDrawer.call ?_ _ (by intro h; cases h) | exact IsDrawer.id)

theorem addTripOverview_drawer (it : Itinerary) :
    IsDrawer (fun pdf => PDFService.addTripOverview pdf it) := by
  simp only [PDFService.addTripOverview]
  repeat (first | refine IsDrawer.call ?_ _ (by intro h; cases h) | exact IsDrawer.id)

theorem addActivity_drawer (activity : Activity) :
    IsDrawer (fun pdf => PDFService.addActivity pdf activity) := by
  simp only [PDFService.addActivity]
  refine IsDrawer.call ?_ _ (by intro h; cases h)
  refine IsDrawer.call ?_ _ (by intro h; cases h)
  refine IsDrawer.when _ ?_
    (g := fun pdf => pdf.call (.MultiCell 0 5 ("Duration: " ++ activity.Duration) "" "L" false))
    (IsDrawer.call IsDrawer.id _ (by intro h; cases h))
  repeat (first | refine IsDrawer.call ?_ _ (by intro h; cases h) | exact IsDrawer.id)

theorem addTimeSlot_drawer (timeSlot : String) (activities : List Activity) :
    IsDrawer (fun pdf => PDFService.addTimeSlot pdf timeSlot activities) := by
  simp only [PDFService.addTimeSlot]
  refine IsDrawer.call ?_ _ (by intro h; cases h)
  refine IsDrawer.foldl ?_ _ addActivity_drawer _
  repeat (first | refine IsDrawer.call ?_ _ (by intro h; cases h) | exact IsDrawer.id)

theorem addDayDetails_drawer (s : PDFService) (day : Day) :
    IsDrawer (fun pdf => s.addDayDetails pdf day) := by
  simp only [PDFService.addDayDetails]
  refine IsDrawer.when _ ?_
    (g := fun pdf => PDFService.addTimeSlot pdf "Evening" day.Activities.Evening)
    (addTimeSlot_drawer _ _)
  refine IsDrawer.when _ ?_
    (g := fun pdf => PDFService.addTimeSlot pdf "Afternoon" day.Activities.Afternoon)
    (addTimeSlot_drawer _ _)
  refine IsDrawer.when _ ?_
    (g := fun pdf => PDFService.addTimeSlot pdf "Morning" day.Activities.Morning)
    (addTimeSlot_drawer _ _)
  repeat (first | refine IsDrawer.call ?_ _ (by intro h; cases h) | exact IsDrawer.id)

theorem addHotel_drawer (s : PDFService) (ih : Nat × Hotel) :
    IsDrawer (fun pdf => s.addHotel pdf ih) := by
  simp only [PDFService.addHotel]
  refine IsDrawer.call ?_ _ (by intro h; cases h)
  refine IsDrawer.when _ ?_
    (g := fun pdf => ((pdf.call (.SetFont "Arial" "I" 9)).call (.SetTextColor 100 100 100)).call
      (.MultiCell 0 5 ("Address: " ++ ih.2.Address) "" "L" false)) ?_
  · repeat (first | refine IsDrawer.call ?_ _ (by intro h; cases h) | exact IsDrawer.id)
  · repeat (first | refine IsDrawer.call ?_ _ (by intro h; cases h) | exact IsDrawer.id)

theorem addHotels_drawer (s : PDFService) (hotels : List Hotel) :
    IsDrawer (fun pdf => s.addHotels pdf hotels) := by
  simp only [PDFService.addHotels]
  exact IsDrawer.foldl (addSectionTitle_drawer _) _ (addHotel_drawer s) _

theorem addFlight_drawer (s : PDFService) (ifl : Nat × Flight) :
    IsDrawer (fun pdf => s.addFlight pdf ifl) := by
  simp only [PDFService.addFlight]
  repeat (first | refine IsDrawer.call ?_ _ (by intro h; cases h) | exact IsDrawer.id)

theorem addFlights_drawer (s : PDFService) (flights : List Flight) :
    IsDrawer (fun pdf => s.addFlights pdf flights) := by
  simp only [PDFService.addFlights]
  exact IsDrawer.foldl (addSectionTitle_drawer _) _ (addFlight_drawer s) _

theorem addTransfer_drawer (s : PDFService) (it : Nat × Transfer) :
    IsDrawer (fun pdf => s.addTransfer pdf it) := by
  simp only [PDFService.addTransfer]
  repeat (first | refine IsDrawer.call ?_ _ (by intro h; cases h) | exact IsDrawer.id)

theorem addTransfers_drawer (s : PDFService) (transfers : List Transfer) :
    IsDrawer (fun pdf => s.addTransfers pdf transfers) := by
  simp only [PDFService.addTransfers]
  exact IsDrawer.foldl (addSectionTitle_drawer _) _ (addTransfer_drawer s) _

theorem addInstallment_drawer (s : PDFService) (inst : Installment) :
    IsDrawer (fun pdf => s.addInstallment pdf inst) := by
  simp only [PDFService.addInstallment]
  repeat (first | refine IsDrawer.call ?_ _ (by intro h; cases h) | exact IsDrawer.id)

theorem addPaymentPlan_drawer (s : PDFService) (plan : PaymentPlan) :
    IsDrawer (fun pdf => s.addPaymentPlan pdf plan) := by
  simp only [PDFService.addPaymentPlan]
  refine IsDrawer.foldl ?_ _ (addInstallment_drawer s) _
  repeat (first | refine IsDrawer.call ?_ _ (by intro h; cases h) | exact IsDrawer.id)

theorem addInclusionsExclusions_drawer (inclusions exclusions : List String) :
    IsDrawer (fun pdf => PDFService.addInclusionsExclusions pdf inclusions exclusions) := by
  simp only [PDFService.addInclusionsExclusions]
  refine IsDrawer.foldl ?_ _
    (fun item => IsDrawer.call IsDrawer.id _ (by intro h; cases h)) _
  refine IsDrawer.call ?_ _ (by intro h; cases h)
  refine IsDrawer.call ?_ _ (by intro h; cases h)
  refine IsDrawer.comp ?_ (addSectionTitle_drawer "Exclusions")
  refine IsDrawer.call ?_ _ (by intro h; cases h)
  refine IsDrawer.foldl ?_ _
    (fun item => IsDrawer.call IsDrawer.id _ (by intro h; cases h)) _
  refine IsDrawer.call ?_ _ (by intro h; cases h)
  refine IsDrawer.call ?_ _ (by intro h; cases h)
  exact addSectionTitle_drawer "Inclusions"

theorem addTitlePage_append (s : PDFService) (pdf : Fpdf) (it : Itinerary) :
    s.addTitlePage pdf it = pdf ++ s.addTitlePage [] it := (addTitlePage_drawer s it).1 pdf

theorem addTripOverview_append (pdf : Fpdf) (it : Itinerary) :
    PDFService.addTripOverview pdf it = pdf ++ PDFService.addTripOverview [] it :=
  (addTripOverview_drawer it).1 pdf

theorem addDayDetails_append (s : PDFService) (pdf : Fpdf) (day : Day) :
    s.addDayDetails pdf day = pdf ++ s.addDayDetails [] day := (addDayDetails_drawer s day).1 pdf

theorem addHotels_append (s : PDFService) (pdf : Fpdf) (hotels : List Hotel) :
    s.addHotels pdf hotels = pdf ++ s.addHotels [] hotels := (addHotels_drawer s hotels).1 pdf

theorem addFlights_append (s : PDFService) (pdf : Fpdf) (flights : List Flight) :
    s.addFlights pdf flights = pdf ++ s.addFlights [] flights :=
  (addFlights_drawer s flights).1 pdf

theorem addTransfers_append (s : PDFService) (pdf : Fpdf) (transfers : List Transfer) :
    s.addTransfers pdf transfers = pdf ++ s.addTransfers [] transfers :=
  (addTransfers_drawer s transfers).1 pdf

theorem addPaymentPlan_append (s : PDFService) (pdf : Fpdf) (plan : PaymentPlan) :
    s.addPaymentPlan pdf plan = pdf ++ s.addPaymentPlan [] plan :=
  (addPaymentPlan_drawer s plan).1 pdf

theorem addInclusionsExclusions_append (pdf : Fpdf) (inclusions exclusions : List String) :
    PDFService.addInclusionsExclusions pdf inclusions exclusions
      = pdf ++ PDFService.addInclusionsExclusions [] inclusions exclusions :=
  (addInclusionsExclusions_drawer inclusions exclusions).1 pdf

theorem blocks_append (as bs : List (List PdfCall)) :
    blocks (as ++ bs) = blocks as ++ blocks bs := by
  induction as with
  | nil => rfl
  | cons a rest ih => simp [blocks, ih]

/-- The loop over the days: a page is opened for each day, in the stored order. -/
theorem days_foldl (s : PDFService) (days : List Day) (pdf : Fpdf) :
    days.foldl (fun pdf day => s.addDayDetails (pdf.call .AddPage) day) pdf
      = pdf ++ blocks (days.map (fun day => s.addDayDetails [] day)) := by
  induction days generalizing pdf with
  | nil => simp [blocks]
  | cons day rest ih =>
    simp only [List.foldl_cons, List.map_cons, blocks]
    rw [ih, addDayDetails_append, Fpdf.call]
    simp

/-- The calls `GeneratePDF` draws: the page-break setting, then the sections, a page
opened before each. -/
theorem render_eq (s : PDFService) (it : Itinerary) :
    s.render it = [PdfCall.SetAutoPageBreak true 15] ++ blocks (sectionBodies s it) := by
  unfold PDFService.render sectionBodies
  simp only []
  rw [addInclusionsExclusions_append, addPaymentPlan_append]
  by_cases ht : it.Transfers = []
  · have h0 : ¬ (it.Transfers.length > 0) := by simp [ht]
    rw [if_neg h0, if_pos ht, addFlights_append, addHotels_append, days_foldl,
      addTripOverview_append, addTitlePage_append]
    simp [blocks_append, blocks, Fpdf.call]
  · have h0 : it.Transfers.length > 0 := List.length_pos.2 ht
    rw [if_pos h0, if_neg ht, addTransfers_append, addFlights_append, addHotels_append,
      days_foldl, addTripOverview_append, addTitlePage_append]
    simp [blocks_append, blocks, Fpdf.call]

theorem pages_append_of_noAddPage (b rest : List PdfCall) (hb : NoAddPage b) :
    pages (b ++ rest) = pages rest := by
  induction b with
  | nil => rfl
  | cons c b ih =>
    have hc : c ≠ PdfCall.AddPage := hb c (List.mem_cons_self _ _)
    have hb2 : NoAddPage b := fun d hd => hb d (List.mem_cons_of_mem _ hd)
    simp only [List.cons_append, pages, if_neg hc]
    exact ih hb2

theorem takeWhile_append_of_noAddPage (b rest : List PdfCall) (hb : NoAddPage b) :
    (b ++ rest).takeWhile (fun d => decide (d ≠ PdfCall.AddPage))
      = b ++ rest.takeWhile (fun d => decide (d ≠ PdfCall.AddPage)) := by
  induction b with
  | nil => rfl
  | cons c b ih =>
    have hc : c ≠ PdfCall.AddPage := hb c (List.mem_cons_self _ _)
    have hb2 : NoAddPage b := fun d hd => hb d (List.mem_cons_of_mem _ hd)
    have hd : decide (c ≠ PdfCall.AddPage) = true := decide_eq_true hc
    simp only [List.cons_append, List.takeWhile_cons, hd, if_true]
    rw [ih hb2]

theorem takeWhile_blocks (bs : List (List PdfCall)) :
    (blocks bs).takeWhile (fun d => decide (d ≠ PdfCall.AddPage)) = [] := by
  cases bs <;> simp [blocks, List.takeWhile]

/-- Reading the pages back from a log made of page blocks gives the blocks. -/
theorem pages_blocks (bs : List (List PdfCall)) (h : ∀ b ∈ bs, NoAddPage b) :
    pages (blocks bs) = bs := by
  induction bs with
  | nil => rfl
  | cons b rest ih =>
    have hb : NoAddPage b := h b (List.mem_cons_self _ _)
    have hr : ∀ c ∈ rest, NoAddPage c := fun c hc => h c (List.mem_cons_of_mem _ hc)
    simp only [blocks, pages, if_true]
    rw [takeWhile_append_of_noAddPage b _ hb, takeWhile_blocks, List.append_nil,
      pages_append_of_noAddPage b _ hb, ih hr]

theorem sectionBodies_noAddPage (s : PDFService) (it : Itinerary) :
    ∀ b ∈ sectionBodies s it, NoAddPage b := by
  intro b hb
  simp only [sectionBodies, List.mem_append, List.mem_cons, List.mem_map, List.mem_singleton,
    List.not_mem_nil, or_false] at hb
  rcases hb with ((((h | h) | ⟨d, _, h⟩) | (h | h)) | h) | (h | h)
  · rw [h]; exact (addTitlePage_drawer s it).2
  · rw [h]; exact (addTripOverview_drawer it).2
  · rw [← h]; exact (addDayDetails_drawer s d).2
  · rw [h]; exact (addHotels_drawer s _).2
  · rw [h]; exact (addFlights_drawer s _).2
  · split_ifs at h with ht
    · cases h
    · rw [List.mem_singleton.1 h]; exact (addTransfers_drawer s _).2
  · rw [h]; exact (addPaymentPlan_drawer s _).2
  · rw [h]; exact (addInclusionsExclusions_drawer _ _).2

theorem firstText_append (a b : List PdfCall) (t : String) (h : firstText a = some t) :
    firstText (a ++ b) = some t := by
  induction a with
  | nil => cases h
  | cons c a ih =>
    cases c <;> simp only [List.cons_append, firstText] at h ⊢ <;> first | exact h | exact ih h

theorem firstText_drawer {f : Fpdf → Fpdf} (hf : IsDrawer f) (pdf : Fpdf) (t : String)
    (h : firstText pdf = some t) : firstText (f pdf) = some t := by
  rw [hf.1 pdf]
  exact firstText_append _ _ _ h

theorem firstText_when {g : Fpdf → Fpdf} (c : Prop) [Decidable c] (hg : IsDrawer g)
    (pdf : Fpdf) (t : String) (h : firstText pdf = some t) :
    firstText (if c then g pdf else pdf) = some t := by
  split_ifs
  · exact firstText_drawer hg pdf t h
  · exact h

theorem firstText_foldl {α : Type} (step : Fpdf → α → Fpdf)
    (hs : ∀ x, IsDrawer (fun pdf => step pdf x)) (xs : List α) (pdf : Fpdf) (t : String)
    (h : firstText pdf = some t) : firstText (xs.foldl step pdf) = some t := by
  rw [foldl_append_of_drawer step hs xs pdf]
  exact firstText_append _ _ _ h

theorem firstText_addDayDetails (s : PDFService) (day : Day) :
    firstText (s.addDayDetails [] day)
      = some ("Day " ++ toString day.DayNumber ++ " - " ++ day.Title) := by
  simp only [PDFService.addDayDetails]
  refine firstText_when _ (g := fun pdf => PDFService.addTimeSlot pdf "Evening" _)
    (addTimeSlot_drawer _ _) _ _ ?_
  refine firstText_when _ (g := fun pdf => PDFService.addTimeSlot pdf "Afternoon" _)
    (addTimeSlot_drawer _ _) _ _ ?_
  refine firstText_when _ (g := fun pdf => PDFService.addTimeSlot pdf "Morning" _)
    (addTimeSlot_drawer _ _) _ _ ?_
  rfl

theorem firstText_addHotels (s : PDFService) (hotels : List Hotel) :
    firstText (s.addHotels [] hotels) = some "Accommodation Details" :=
  firstText_foldl _ (addHotel_drawer s) _ _ _ rfl

theorem firstText_addFlights (s : PDFService) (flights : List Flight) :
    firstText (s.addFlights [] flights) = some "Flight Details" :=
  firstText_foldl _ (addFlight_drawer s) _ _ _ rfl

theorem firstText_addTransfers (s : PDFService) (transfers : List Transfer) :
    firstText (s.addTransfers [] transfers) = some "Transfer Details" :=
  firstText_foldl _ (addTransfer_drawer s) _ _ _ rfl

theorem firstText_addPaymentPlan (s : PDFService) (plan : PaymentPlan) :
    firstText (s.addPaymentPlan [] plan) = some "Payment Plan" :=
  firstText_foldl _ (addInstallment_drawer s) _ _ _ rfl

theorem firstText_call (pdf : Fpdf) (c : PdfCall) (t : String)
    (h : firstText pdf = some t) : firstText (pdf.call c) = some t :=
  firstText_append _ _ _ h

theorem firstText_addSectionTitle (title : String) :
    firstText (PDFService.addSectionTitle [] title) = some title := rfl

theorem firstText_addInclusionsExclusions (inclusions exclusions : List String) :
    firstText (PDFService.addInclusionsExclusions [] inclusions exclusions)
      = some "Inclusions" := by
  simp only [PDFService.addInclusionsExclusions]
  refine firstText_foldl _ (fun item => IsDrawer.call IsDrawer.id _ (by intro h; cases h))
    _ _ _ ?_
  refine firstText_call _ _ _ ?_
  refine firstText_call _ _ _ ?_
  refine firstText_drawer (addSectionTitle_drawer "Exclusions") _ _ ?_
  refine firstText_call _ _ _ ?_
  refine firstText_foldl _ (fun item => IsDrawer.call IsDrawer.id _ (by intro h; cases h))
    _ _ _ ?_
  refine firstText_call _ _ _ ?_
  refine firstText_call _ _ _ ?_
  exact firstText_addSectionTitle _

theorem firstText_addTitlePage (s : PDFService) (it : Itinerary) :
    firstText (s.addTitlePage [] it) = some it.Title := by
  simp only [PDFService.addTitlePage]
  iterate 17 refine firstText_call _ _ _ ?_
  rfl

theorem firstText_addTripOverview (it : Itinerary) :
    firstText (PDFService.addTripOverview [] it) = some "Trip Overview" := by
  simp only [PDFService.addTripOverview]
  iterate 10 refine firstText_call _ _ _ ?_
  exact firstText_addSectionTitle _

theorem sectionBodies_firstText (s : PDFService) (it : Itinerary) :
    (sectionBodies s it).map firstText = sectionHeadings it := by
  unfold sectionBodies sectionHeadings
  have h3 : (firstText ∘ fun day => s.addDayDetails [] day)
      = fun day => some ("Day " ++ toString day.DayNumber ++ " - " ++ day.Title) := by
    funext day
    exact firstText_addDayDetails s day
  simp only [List.map_append, List.map_cons, List.map_nil, List.map_map, h3,
    firstText_addTitlePage, firstText_addTripOverview, firstText_addHotels,
    firstText_addFlights, firstText_addPaymentPlan, firstText_addInclusionsExclusions]
  by_cases ht : it.Transfers = []
  · simp [ht]
  · simp [ht, firstText_addTransfers]

theorem sectionBodies_hasText (s : PDFService) (it : Itinerary) :
    ∀ b ∈ sectionBodies s it, ∃ t, firstText b = some t := by
  intro b hb
  simp only [sectionBodies, List.mem_append, List.mem_cons, List.mem_map, List.mem_singleton,
    List.not_mem_nil, or_false] at hb
  rcases hb with ((((h | h) | ⟨d, _, h⟩) | (h | h)) | h) | (h | h)
  · rw [h]; exact ⟨_, firstText_addTitlePage s it⟩
  · rw [h]; exact ⟨_, firstText_addTripOverview it⟩
  · rw [← h]; exact ⟨_, firstText_addDayDetails s d⟩
  · rw [h]; exact ⟨_, firstText_addHotels s _⟩
  · rw [h]; exact ⟨_, firstText_addFlights s _⟩
  · split_ifs at h with ht
    · cases h
    · rw [List.mem_singleton.1 h]; exact ⟨_, firstText_addTransfers s _⟩
  · rw [h]; exact ⟨_, firstText_addPaymentPlan s _⟩
  · rw [h]; exact ⟨_, firstText_addInclusionsExclusions _ _⟩

theorem pages_of_noAddPage (l : List PdfCall) (h : NoAddPage l) : pages l = [] := by
  have := pages_append_of_noAddPage l [] h
  simpa [pages] using this

/-- Calls issued after the last section, none of them opening a page, leave the headings
of the pages as they are. -/
theorem headings_blocks_append (bs : List (List PdfCall)) (tail : List PdfCall)
    (hbs : ∀ b ∈ bs, NoAddPage b) (hft : ∀ b ∈ bs, ∃ t, firstText b = some t)
    (ht : NoAddPage tail) :
    (pages (blocks bs ++ tail)).map firstText = bs.map firstText := by
  induction bs with
  | nil => simp [blocks, pages_of_noAddPage tail ht]
  | cons b rest ih =>
    have hb : NoAddPage b := hbs b (List.mem_cons_self _ _)
    have hr : ∀ c ∈ rest, NoAddPage c := fun c hc => hbs c (List.mem_cons_of_mem _ hc)
    have hfr : ∀ c ∈ rest, ∃ t, firstText c = some t :=
      fun c hc => hft c (List.mem_cons_of_mem _ hc)
    obtain ⟨t, htb⟩ := hft b (List.mem_cons_self _ _)
    have e : blocks (b :: rest) ++ tail = PdfCall.AddPage :: (b ++ (blocks rest ++ tail)) := by
      simp [blocks]
    rw [e]
    simp only [pages, if_true, List.map_cons]
    rw [takeWhile_append_of_noAddPage b _ hb, firstText_append _ _ t htb, htb,
      pages_append_of_noAddPage b _ hb, ih hr hfr]

/-- The canvas log of `GeneratePDF` is what `render` draws, followed at most by the call
that writes the file. -/
theorem generatePDF_log (s : PDFService) (now : Time) (mkdirErr saveErr : Option GoError)
    (it : Itinerary) :
    ∃ tail, (s.GeneratePDF now mkdirErr saveErr it).2 = s.render it ++ tail ∧ NoAddPage tail := by
  unfold PDFService.GeneratePDF
  cases mkdirErr with
  | some err => exact ⟨[], by simp, fun _ h => by cases h⟩
  | none =>
    cases saveErr with
    | some err =>
      refine ⟨[_], rfl, ?_⟩
      intro c hc
      rw [List.mem_singleton.1 hc]
      intro h
      cases h
    | none =>
      refine ⟨[_], rfl, ?_⟩
      intro c hc
      rw [List.mem_singleton.1 hc]
      intro h
      cases h

/-- C10. The pages `GeneratePDF` opens are, in this order: the title page, the overview,
one page per element of Days in the stored order (the k-th one drawn from the k-th Day and
headed by that Day's number and title), hotels, flights, transfers if and only if the
transfer list is non-empty, the payment plan, and inclusions/exclusions; each page holds
exactly the calls of its section builder. -/
theorem generatePDF_section_order (s : PDFService) (now : Time)
    (mkdirErr saveErr : Option GoError) (it : Itinerary) :
    pages (s.render it) =
      [s.addTitlePage [] it, PDFService.addTripOverview [] it]
        ++ it.Days.map (fun day => s.addDayDetails [] day)
        ++ [s.addHotels [] it.Hotels, s.addFlights [] it.Flights]
        ++ (if it.Transfers = [] then [] else [s.addTransfers [] it.Transfers])
        ++ [s.addPaymentPlan [] it.PaymentPlan,
            PDFService.addInclusionsExclusions [] it.Inclusions it.Exclusions] ∧
    (pages (s.GeneratePDF now mkdirErr saveErr it).2).map firstText =
      [some it.Title, some "Trip Overview"]
        ++ it.Days.map (fun day => some ("Day " ++ toString day.DayNumber ++ " - " ++ day.Title))
        ++ [some "Accommodation Details", some "Flight Details"]
        ++ (if it.Transfers = [] then [] else [some "Transfer Details"])
        ++ [some "Payment Plan", some "Inclusions"] := by
  constructor
  · show pages (s.render it) = sectionBodies s it
    rw [render_eq, pages_append_of_noAddPage _ _ (by
      intro c hc
      rw [List.mem_singleton.1 hc]
      intro h
      cases h)]
    exact pages_blocks _ (sectionBodies_noAddPage s it)
  · show _ = sectionHeadings it
    obtain ⟨tail, hlog, htail⟩ := generatePDF_log s now mkdirErr saveErr it
    rw [hlog, render_eq, List.append_assoc, pages_append_of_noAddPage _ _ (by
      intro c hc
      rw [List.mem_singleton.1 hc]
      intro h
      cases h), headings_blocks_append _ _ (sectionBodies_noAddPage s it)
        (sectionBodies_hasText s it) htail]
    exact sectionBodies_firstText s it

/-! ## The number of pages -/

theorem count_noAddPage (l : List PdfCall) (h : NoAddPage l) :
    l.count PdfCall.AddPage = 0 :=
  List.count_eq_zero.2 (fun hm => h _ hm rfl)

theorem count_blocks (bs : List (List PdfCall)) (h : ∀ b ∈ bs, NoAddPage b) :
    (blocks bs).count PdfCall.AddPage = bs.length := by
  induction bs with
  | nil => rfl
  | cons b rest ih =>
    have hb : NoAddPage b := h b (List.mem_cons_self _ _)
    have hr : ∀ c ∈ rest, NoAddPage c := fun c hc => h c (List.mem_cons_of_mem _ hc)
    simp only [blocks, List.count_cons_self, List.count_append, count_noAddPage b hb, ih hr,
      List.length_cons]
    omega

theorem sectionBodies_length (s : PDFService) (it : Itinerary) :
    (sectionBodies s it).length
      = it.Days.length + 6 + (if it.Transfers = [] then 0 else 1) := by
  unfold sectionBodies
  by_cases ht : it.Transfers = []
  · simp [ht]
  · simp [ht]

/-- C11. The number of `AddPage` calls `GeneratePDF` issues is the number of Days plus six
(title page, overview, hotels, flights, payment plan, inclusions/exclusions), plus one when
the transfer list is not empty: it does not depend on the activities or on anything else in
the itinerary, nor on whether the directory or the file could be written. -/
theorem generatePDF_page_count (s : PDFService) (now : Time)
    (mkdirErr saveErr : Option GoError) (it : Itinerary) :
    (s.GeneratePDF now mkdirErr saveErr it).2.count PdfCall.AddPage
      = it.Days.length + 6 + (if it.Transfers = [] then 0 else 1) ∧
    (pages (s.GeneratePDF now mkdirErr saveErr it).2).length
      = it.Days.length + 6 + (if it.Transfers = [] then 0 else 1) := by
  obtain ⟨tail, hlog, htail⟩ := generatePDF_log s now mkdirErr saveErr it
  have h1 : NoAddPage [PdfCall.SetAutoPageBreak true 15] := by
    intro c hc
    rw [List.mem_singleton.1 hc]
    intro h
    cases h
  constructor
  · rw [hlog, render_eq, List.count_append, List.count_append, count_noAddPage _ h1,
      count_noAddPage _ htail, count_blocks _ (sectionBodies_noAddPage s it),
      sectionBodies_length]
    omega
  · have hp := congrArg List.length
      (headings_blocks_append (sectionBodies s it) tail (sectionBodies_noAddPage s it)
        (sectionBodies_hasText s it) htail)
    rw [hlog, render_eq, List.append_assoc, pages_append_of_noAddPage _ _ h1]
    rw [List.length_map, List.length_map] at hp
    rw [hp, sectionBodies_length]

/-! ## The page of a day -/

theorem texts_append (a b : List PdfCall) : texts (a ++ b) = texts a ++ texts b := by
  induction a with
  | nil => rfl
  | cons c rest ih => cases c <;> simp [texts, ih]

theorem texts_call (pdf : Fpdf) (c : PdfCall) : texts (pdf.call c) = texts pdf ++ texts [c] := by
  rw [Fpdf.call, texts_append]

theorem texts_nil : texts [] = [] := rfl

theorem texts_setFont (a b : String) (c : Nat) : texts [.SetFont a b c] = [] := rfl

theorem texts_setTextColor (r g b : Nat) : texts [.SetTextColor r g b] = [] := rfl

theorem texts_ln (h : Nat) : texts [.Ln h] = [] := rfl

theorem texts_setLeftMargin (m : Nat) : texts [.SetLeftMargin m] = [] := rfl

theorem texts_cellFormat (w h : Nat) (txt border : String) (ln : Nat) (align : String)
    (fill : Bool) (link : Nat) (linkStr : String) :
    texts [.CellFormat w h txt border ln align fill link linkStr] = [txt] := rfl

theorem texts_multiCell (w h : Nat) (txt border align : String) (fill : Bool) :
    texts [.MultiCell w h txt border align fill] = [txt] := rfl

theorem texts_addActivity (a : Activity) :
    texts (PDFService.addActivity [] a) = activityTexts a := by
  by_cases h : a.Duration = ""
  · simp [PDFService.addActivity, Fpdf.call, texts, activityTexts, h]
  · simp [PDFService.addActivity, Fpdf.call, texts, activityTexts, h]

theorem texts_foldl_addActivity (activities : List Activity) :
    texts (activities.foldl PDFService.addActivity [])
      = (activities.map activityTexts).flatten := by
  induction activities with
  | nil => rfl
  | cons a rest ih =>
    rw [List.foldl_cons, foldl_append_of_drawer _ addActivity_drawer rest, texts_append,
      texts_addActivity, ih]
    rfl

theorem texts_addTimeSlot (pdf : Fpdf) (timeSlot : String) (activities : List Activity) :
    texts (PDFService.addTimeSlot pdf timeSlot activities)
      = texts pdf ++ timeSlot :: (activities.map activityTexts).flatten := by
  simp only [PDFService.addTimeSlot, Fpdf.call]
  rw [texts_append, foldl_append_of_drawer _ addActivity_drawer, texts_append,
    texts_foldl_addActivity]
  simp [texts_append, texts]

theorem texts_slot (pdf : Fpdf) (timeSlot : String) (activities : List Activity) :
    texts (if activities.length > 0 then PDFService.addTimeSlot pdf timeSlot activities
      else pdf) = texts pdf ++ slotTexts timeSlot activities := by
  unfold slotTexts
  by_cases h : activities = []
  · simp [h]
  · have h0 : activities.length > 0 := List.length_pos.2 h
    rw [if_pos h0, if_neg h, texts_addTimeSlot]

/-- C12. The texts `addDayDetails` places are the header (the line "Day n - title" and the
formatted date) and then the blocks of Morning, Afternoon and Evening in this order, a
block being left out exactly when its activity list is empty; a block is the name of the
slot followed, for every activity in input order, by its name, description and location,
and by a "Duration: ..." line exactly when its duration string is not empty. A day with
no activity in any slot gets the seven calls of the header and nothing else. -/
theorem addDayDetails_blocks (s : PDFService) (day : Day) :
    texts (s.addDayDetails [] day) =
      ["Day " ++ toString day.DayNumber ++ " - " ++ day.Title,
        s.Format day.Date "Monday, January 2, 2006"]
        ++ slotTexts "Morning" day.Activities.Morning
        ++ slotTexts "Afternoon" day.Activities.Afternoon
        ++ slotTexts "Evening" day.Activities.Evening ∧
    (∀ (timeSlot : String) (activities : List Activity),
      slotTexts timeSlot activities =
        if activities = [] then []
        else timeSlot :: (activities.map (fun a =>
          ["• " ++ a.Name, a.Description, "Location: " ++ a.Location]
            ++ (if a.Duration = "" then [] else ["Duration: " ++ a.Duration]))).flatten) ∧
    (day.Activities.Morning = [] → day.Activities.Afternoon = [] →
      day.Activities.Evening = [] →
      s.addDayDetails [] day =
        [.SetFont "Arial" "B" 16, .SetTextColor 25 25 112,
          .CellFormat 0 10 ("Day " ++ toString day.DayNumber ++ " - " ++ day.Title)
            "" 1 "L" false 0 "",
          .SetFont "Arial" "I" 10, .SetTextColor 100 100 100,
          .CellFormat 0 6 (s.Format day.Date "Monday, January 2, 2006") "" 1 "L" false 0 "",
          .Ln 5]) := by
  refine ⟨?_, fun _ _ => rfl, ?_⟩
  · simp only [PDFService.addDayDetails]
    rw [texts_slot, texts_slot, texts_slot]
    simp [Fpdf.call, texts]
  · intro h1 h2 h3
    simp [PDFService.addDayDetails, h1, h2, h3, Fpdf.call]

/-- C12, at a day with one activity in the morning, none in the afternoon and two in the
evening, the second without a duration; and at a day without activities. -/
theorem addDayDetails_blocks_witness :
    texts ((pdfServiceAt "./output" 0).addDayDetails [] sampleDay) =
      ["Day 1 - Arrival", "Monday, January 1, 2024",
        "Morning", "• Check-in", "Hotel", "Location: Patong", "Duration: 1 hour",
        "Evening", "• Dinner", "Seafood", "Location: Beach", "Duration: 2 hours",
        "• Walk", "", "Location: Pier"] ∧
    (dayOf 1 "Arrival").Activities.Morning = [] ∧
    (dayOf 1 "Arrival").Activities.Afternoon = [] ∧
    (dayOf 1 "Arrival").Activities.Evening = [] ∧
    (pdfServiceAt "./output" 0).addDayDetails [] (dayOf 1 "Arrival") =
      [.SetFont "Arial" "B" 16, .SetTextColor 25 25 112,
        .CellFormat 0 10 "Day 1 - Arrival" "" 1 "L" false 0 "",
        .SetFont "Arial" "I" 10, .SetTextColor 100 100 100,
        .CellFormat 0 6 "Monday, January 1, 2024" "" 1 "L" false 0 "",
        .Ln 5] :=
  ⟨((addDayDetails_blocks (pdfServiceAt "./output" 0) sampleDay).1).trans (by decide),
    rfl, rfl, rfl,
    ((addDayDetails_blocks (pdfServiceAt "./output" 0) (dayOf 1 "Arrival")).2.2
      rfl rfl rfl).trans (by decide)⟩

/-! ## The day count on the title page and in the overview -/

theorem texts_addTitlePage (s : PDFService) (it : Itinerary) :
    texts (s.addTitlePage [] it) =
      [it.Title, it.Destination,
        s.Format it.StartDate "January 2, 2006" ++ " to "
          ++ s.Format it.EndDate "January 2, 2006",
        "Itinerary ID: " ++ it.ID, "User ID: " ++ it.UserID,
        toString (duration it.StartDate it.EndDate) ++ " Days / "
          ++ toString (duration it.StartDate it.EndDate - 1) ++ " Nights"] := by
  simp only [PDFService.addTitlePage, texts_call, texts_nil, texts_setFont, texts_setTextColor,
    texts_ln, texts_cellFormat, List.nil_append, List.append_nil, List.cons_append]

theorem texts_addTripOverview (it : Itinerary) :
    texts (PDFService.addTripOverview [] it) =
      ["Trip Overview",
        "Duration: " ++ toString it.Days.length ++ " days",
        "Hotels: " ++ toString it.Hotels.length ++ " accommodations",
        "Flights: " ++ toString it.Flights.length ++ " flights booked",
        "Transfers: " ++ toString it.Transfers.length ++ " transfers arranged",
        "Total Package Cost: " ++ F64.fmt2 it.PaymentPlan.AmountDue] := by
  simp only [PDFService.addTripOverview, PDFService.addSectionTitle, texts_call, texts_nil,
    texts_setFont, texts_setTextColor, texts_ln, texts_cellFormat, texts_multiCell,
    List.nil_append, List.append_nil, List.cons_append]

/-- The itinerary a successful `CreateItinerary` returns holds the dates and days of the
request, and its number of days is the span of its dates. -/
theorem createItinerary_stored (w : World) (now : Time) (newID : String)
    (req : CreateItineraryReq) (p : Nat)
    (h : (CreateItinerary w now newID req).1 = .ok p) :
    ((CreateItinerary w now newID req).2.heap p).StartDate = req.StartDate ∧
    ((CreateItinerary w now newID req).2.heap p).EndDate = req.EndDate ∧
    ((CreateItinerary w now newID req).2.heap p).Days = req.Days ∧
    (req.Days.length : Int) = duration req.StartDate req.EndDate := by
  unfold CreateItinerary at h ⊢
  by_cases hb : (req.EndDate.Before req.StartDate || req.EndDate.Equal req.StartDate) = true
  · rw [if_pos hb] at h
    cases h
  · simp only [if_neg hb, validateDays_eq] at h ⊢
    by_cases hd : (req.Days.length : Int) ≠ duration req.StartDate req.EndDate
    · rw [if_pos hd] at h
      cases h
    · simp only [if_neg hd] at h ⊢
      cases hp : validatePaymentPlan req.PaymentPlan with
      | some err =>
        simp only [hp] at h
        cases h
      | none =>
        simp only [hp] at h ⊢
        by_cases hs : (w.itineraries newID).isSome = true
        · simp [InMemoryRepo.Create, hs] at h
        · simp [InMemoryRepo.Create, hs] at h ⊢
          subst h
          simpa [World.setKey] using hd

theorem whole_days_eq_calendar (offset : Int) (s e : Time) :
    (timeOfDay offset s ≤ timeOfDay offset e →
      (e.unixNano - s.unixNano) / (24 * Hour) + 1 = specInclusiveDaySpan offset s e) ∧
    (timeOfDay offset e < timeOfDay offset s →
      (e.unixNano - s.unixNano) / (24 * Hour) + 1 = specInclusiveDaySpan offset s e - 1) := by
  have hH : 24 * Hour = 86400000000000 := by decide
  rw [hH]
  unfold specInclusiveDaySpan dayNumber timeOfDay
  constructor <;> intro h <;> omega

/-- C15, refuted as stated: the request for 2024-01-01T23:00:00Z to 2024-01-02T01:00:00Z
with one day is created, and the title page of the returned itinerary prints
"1 Days / 0 Nights", while the number of calendar days from its StartDate to its EndDate,
counting both endpoints, is 2. -/
theorem createItinerary_title_span_counterexample :
    (CreateItinerary emptyWorld jan1 "id-1"
      (requestOf jan1Late jan2Early [dayOf 1 "Arrival"] planExact)).1 = .ok 0 ∧
    (texts ((pdfServiceAt "./output" 0).addTitlePage []
      ((CreateItinerary emptyWorld jan1 "id-1"
        (requestOf jan1Late jan2Early [dayOf 1 "Arrival"] planExact)).2.heap 0))).getLast?
      = some "1 Days / 0 Nights" ∧
    specInclusiveDaySpan 0
      ((CreateItinerary emptyWorld jan1 "id-1"
        (requestOf jan1Late jan2Early [dayOf 1 "Arrival"] planExact)).2.heap 0).StartDate
      ((CreateItinerary emptyWorld jan1 "id-1"
        (requestOf jan1Late jan2Early [dayOf 1 "Arrival"] planExact)).2.heap 0).EndDate
      = 2 := by
  decide

/-- C15, amended. For the itinerary a successful `CreateItinerary` returns, the title page
prints "D Days / N Nights" where D is the count `int(EndDate.Sub(StartDate).Hours()/24) + 1`
of its dates, the one `validateDays` compares against, and N is D - 1; D is the number of
its Days, and the overview prints "Duration: len(Days) days" with the same numeral. When
the difference of the dates fits a `time.Duration` and is a whole number of milliseconds,
D is the number of whole 24-hour periods from StartDate to EndDate plus one, and it is the
number of calendar days counting both endpoints, in a zone of fixed offset, when moreover
the time of day of EndDate is not earlier than that of StartDate. -/
theorem createItinerary_title_agrees_with_overview (s : PDFService) (w : World) (now : Time)
    (newID : String) (req : CreateItineraryReq) (p : Nat)
    (h : (CreateItinerary w now newID req).1 = .ok p) :
    duration ((CreateItinerary w now newID req).2.heap p).StartDate
        ((CreateItinerary w now newID req).2.heap p).EndDate
      = (((CreateItinerary w now newID req).2.heap p).Days.length : Int) ∧
    (texts (s.addTitlePage [] ((CreateItinerary w now newID req).2.heap p))).getLast? =
      some (toString ((CreateItinerary w now newID req).2.heap p).Days.length ++ " Days / "
        ++ toString ((((CreateItinerary w now newID req).2.heap p).Days.length : Int) - 1)
        ++ " Nights") ∧
    "Duration: " ++ toString ((CreateItinerary w now newID req).2.heap p).Days.length
        ++ " days"
      ∈ texts (PDFService.addTripOverview [] ((CreateItinerary w now newID req).2.heap p)) ∧
    validateDays ((CreateItinerary w now newID req).2.heap p).Days
      ((CreateItinerary w now newID req).2.heap p).StartDate
      ((CreateItinerary w now newID req).2.heap p).EndDate = none ∧
    (((CreateItinerary w now newID req).2.heap p).EndDate.unixNano
        - ((CreateItinerary w now newID req).2.heap p).StartDate.unixNano ≤ maxDuration →
      (((CreateItinerary w now newID req).2.heap p).EndDate.unixNano
        - ((CreateItinerary w now newID req).2.heap p).StartDate.unixNano) % 1000000 = 0 →
      (((CreateItinerary w now newID req).2.heap p).Days.length : Int)
          = (((CreateItinerary w now newID req).2.heap p).EndDate.unixNano
            - ((CreateItinerary w now newID req).2.heap p).StartDate.unixNano) / (24 * Hour)
            + 1 ∧
        ∀ offset : Int,
          timeOfDay offset ((CreateItinerary w now newID req).2.heap p).StartDate
            ≤ timeOfDay offset ((CreateItinerary w now newID req).2.heap p).EndDate →
          (((CreateItinerary w now newID req).2.heap p).Days.length : Int)
            = specInclusiveDaySpan offset
                ((CreateItinerary w now newID req).2.heap p).StartDate
                ((CreateItinerary w now newID req).2.heap p).EndDate) := by
  obtain ⟨h1, h2, h3, h4⟩ := createItinerary_stored w now newID req p h
  have hD : duration ((CreateItinerary w now newID req).2.heap p).StartDate
        ((CreateItinerary w now newID req).2.heap p).EndDate
      = (((CreateItinerary w now newID req).2.heap p).Days.length : Int) := by
    rw [h1, h2, h3, h4]
  have hlt : req.StartDate.unixNano < req.EndDate.unixNano := by
    by_contra hc
    have hres := createItinerary_result w now newID req
    rw [if_pos (by omega)] at hres
    rw [hres] at h
    cases h
  refine ⟨hD, ?_, ?_, ?_, ?_⟩
  · rw [texts_addTitlePage, hD]
    rfl
  · rw [texts_addTripOverview]
    simp
  · rw [validateDays_eq, if_neg (by rw [hD]; simp)]
  · intro hfit hms
    have hw := duration_eq_whole_days
      ((CreateItinerary w now newID req).2.heap p).StartDate
      ((CreateItinerary w now newID req).2.heap p).EndDate
      (by rw [h1, h2]; omega) hfit hms
    rw [hD] at hw
    exact ⟨hw, fun offset ht => hw.trans ((whole_days_eq_calendar offset _ _).1 ht)⟩

/-- C15 amended, at the request for 2024-01-01 to 2024-01-03 with three days: the title
page prints "3 Days / 2 Nights" and the overview "Duration: 3 days", and three is the
number of calendar days from the first date to the last. -/
theorem createItinerary_title_agrees_with_overview_witness :
    (CreateItinerary emptyWorld jan1 "id-1" (requestOf jan1 jan3 threeDays planExact)).1
      = .ok 0 ∧
    (texts ((pdfServiceAt "./output" 0).addTitlePage []
      ((CreateItinerary emptyWorld jan1 "id-1"
        (requestOf jan1 jan3 threeDays planExact)).2.heap 0))).getLast?
      = some "3 Days / 2 Nights" ∧
    "Duration: 3 days" ∈ texts (PDFService.addTripOverview []
      ((CreateItinerary emptyWorld jan1 "id-1"
        (requestOf jan1 jan3 threeDays planExact)).2.heap 0)) ∧
    jan3.unixNano - jan1.unixNano ≤ maxDuration ∧
    (jan3.unixNano - jan1.unixNano) % 1000000 = 0 ∧
    timeOfDay 0 jan1 ≤ timeOfDay 0 jan3 ∧
    (((CreateItinerary emptyWorld jan1 "id-1"
        (requestOf jan1 jan3 threeDays planExact)).2.heap 0).Days.length : Int)
      = specInclusiveDaySpan 0 jan1 jan3 :=
  ⟨by decide,
    ((createItinerary_title_agrees_with_overview (pdfServiceAt "./output" 0) emptyWorld jan1
      "id-1" (requestOf jan1 jan3 threeDays planExact) 0 (by decide)).2.1).trans (by decide),
    (createItinerary_title_agrees_with_overview (pdfServiceAt "./output" 0) emptyWorld jan1
      "id-1" (requestOf jan1 jan3 threeDays planExact) 0 (by decide)).2.2.1,
    by decide, by decide, by decide,
    ((createItinerary_title_agrees_with_overview (pdfServiceAt "./output" 0) emptyWorld jan1
      "id-1" (requestOf jan1 jan3 threeDays planExact) 0 (by decide)).2.2.2.2
        (by decide) (by decide)).2 0 (by decide)⟩

/-! ## The day span and the calendar -/

/-- C13, refuted as stated: from 2024-01-01T23:00:00Z to 2024-01-02T01:00:00Z there are
two calendar days counting both endpoints, but the expected day count is 1: `validateDays`
accepts one Day and rejects two with "expected 1 days, got 2", and the title page prints
"1 Days / 0 Nights". -/
theorem validateDays_calendar_days_counterexample :
    jan1Late.unixNano < jan2Early.unixNano ∧
    goFormat 0 jan1Late "January 2, 2006 at 3:04 PM" = "January 1, 2024 at 11:00 PM" ∧
    goFormat 0 jan2Early "January 2, 2006 at 3:04 PM" = "January 2, 2024 at 1:00 AM" ∧
    specInclusiveDaySpan 0 jan1Late jan2Early = 2 ∧
    duration jan1Late jan2Early = 1 ∧
    validateDays [dayOf 1 "Arrival"] jan1Late jan2Early = none ∧
    validateDays [dayOf 1 "Arrival", dayOf 2 "Departure"] jan1Late jan2Early =
      some (.wrapError "number of days doesn't match date range: expected 1 days, got 2"
        ErrInvalidDays) ∧
    (texts ((pdfServiceAt "./output" 0).addTitlePage []
      { blankItinerary with StartDate := jan1Late, EndDate := jan2Early })).getLast?
      = some "1 Days / 0 Nights" := by
  decide

/-- C13, amended. For an EndDate not before the StartDate whose difference fits a
`time.Duration` and is a whole number of milliseconds, the expected day count that
`validateDays` compares the number of Days against, and that the title page prints, is the
number of whole 24-hour periods from StartDate to EndDate plus one. In any one zone this is
the number of calendar days counting both endpoints when the time of day of EndDate is not
earlier than that of StartDate (as when both are midnight), and one less otherwise. -/
theorem validateDays_counts_whole_periods (offset : Int) (s e : Time)
    (h1 : s.unixNano ≤ e.unixNano) (h2 : e.unixNano - s.unixNano ≤ maxDuration)
    (h3 : (e.unixNano - s.unixNano) % 1000000 = 0) :
    duration s e = (e.unixNano - s.unixNano) / (24 * Hour) + 1 ∧
    (timeOfDay offset s ≤ timeOfDay offset e →
      duration s e = specInclusiveDaySpan offset s e) ∧
    (timeOfDay offset e < timeOfDay offset s →
      duration s e = specInclusiveDaySpan offset s e - 1) ∧
    (∀ days : List Day, validateDays days s e = none ↔
      (days.length : Int) = (e.unixNano - s.unixNano) / (24 * Hour) + 1) ∧
    (∀ (svc : PDFService) (it : Itinerary),
      (texts (svc.addTitlePage [] { it with StartDate := s, EndDate := e })).getLast? =
        some (toString ((e.unixNano - s.unixNano) / (24 * Hour) + 1) ++ " Days / "
          ++ toString ((e.unixNano - s.unixNano) / (24 * Hour) + 1 - 1) ++ " Nights")) := by
  have hd := duration_eq_whole_days s e h1 h2 h3
  have hc := whole_days_eq_calendar offset s e
  refine ⟨hd, fun h => hd.trans (hc.1 h), fun h => hd.trans (hc.2 h), ?_, ?_⟩
  · intro days
    rw [validateDays_eq, hd]
    by_cases hl : (days.length : Int) = (e.unixNano - s.unixNano) / (24 * Hour) + 1
    · simp [hl]
    · simp [hl]
  · intro svc it
    rw [texts_addTitlePage]
    simp only [hd]
    rfl

/-- C13 amended, from 2024-01-01T23:00:00Z to 2024-01-02T23:30:00Z: one whole 24-hour
period, a day count of 2, which is the two calendar days. -/
theorem validateDays_counts_whole_periods_witness :
    jan1Late.unixNano ≤ jan2Late.unixNano ∧
    jan2Late.unixNano - jan1Late.unixNano ≤ maxDuration ∧
    (jan2Late.unixNano - jan1Late.unixNano) % 1000000 = 0 ∧
    timeOfDay 0 jan1Late ≤ timeOfDay 0 jan2Late ∧
    duration jan1Late jan2Late = 2 ∧
    duration jan1Late jan2Late = specInclusiveDaySpan 0 jan1Late jan2Late :=
  ⟨by decide, by decide, by decide, by decide,
    ((validateDays_counts_whole_periods 0 jan1Late jan2Late (by decide) (by decide)
      (by decide)).1).trans (by decide),
    (validateDays_counts_whole_periods 0 jan1Late jan2Late (by decide) (by decide)
      (by decide)).2.1 (by decide)⟩

/-! ## The name of the file -/

theorem filename_eq_iff (s : PDFService) (now1 now2 : Time) (it : Itinerary) :
    s.filename now1 it = s.filename now2 it ↔
      s.Format now1 "20060102_150405" = s.Format now2 "20060102_150405" := by
  unfold PDFService.filename
  constructor
  · intro h
    have h2 := congrArg String.data h
    simp only [String.data_append, List.append_assoc, List.append_cancel_left_eq,
      List.append_cancel_right_eq] at h2
    exact String.ext h2
  · intro h
    rw [h]

theorem goFormat_same_second (offset : Int) (t1 t2 : Time) (layout : String)
    (h : t1.unixNano / 1000000000 = t2.unixNano / 1000000000) :
    goFormat offset t1 layout = goFormat offset t2 layout := by
  unfold goFormat
  rw [h]

theorem generatePDF_ok (s : PDFService) (now : Time) (it : Itinerary) :
    (s.GeneratePDF now none none it).1 = .ok (s.Join s.outputDir (s.filename now it)) :=
  rfl

/-- C14, refuted as stated: of two renders of one itinerary, the second 0.8 seconds after
the first, both within the second 2024-01-01T12:00:00Z, each returns the same path
`output/itinerary_<ID>_20240101_120000.pdf`, so the second render writes over the file of
the first. -/
theorem generatePDF_same_second_counterexample :
    noonEarly.unixNano < noonLate.unixNano ∧
    ((pdfServiceAt "./output" 0).GeneratePDF noonEarly none none (itineraryWithID sampleID)).1
      = .ok "output/itinerary_123e4567-e89b-12d3-a456-426614174000_20240101_120000.pdf" ∧
    ((pdfServiceAt "./output" 0).GeneratePDF noonLate none none (itineraryWithID sampleID)).1
      = .ok "output/itinerary_123e4567-e89b-12d3-a456-426614174000_20240101_120000.pdf" := by
  decide

/-- C14, amended. When the directory and the file can be written, `GeneratePDF` returns
the configured output directory joined with the file name
`itinerary_<ID>_<render instant formatted with the layout 20060102_150405>.pdf`; two
renders of one itinerary produce different file names exactly when the formatted
timestamps of their instants differ, and two renders whose instants fall in the same
second produce the same file name and the same path. -/
theorem generatePDF_file_name (s : PDFService) (dir : String) (offset : Int)
    (now1 now2 : Time) (it : Itinerary) :
    (s.GeneratePDF now1 none none it).1 =
      .ok (s.Join s.outputDir
        ("itinerary_" ++ it.ID ++ "_" ++ s.Format now1 "20060102_150405" ++ ".pdf")) ∧
    (s.filename now1 it ≠ s.filename now2 it ↔
      s.Format now1 "20060102_150405" ≠ s.Format now2 "20060102_150405") ∧
    (now1.unixNano / 1000000000 = now2.unixNano / 1000000000 →
      (pdfServiceAt dir offset).filename now1 it = (pdfServiceAt dir offset).filename now2 it ∧
      ((pdfServiceAt dir offset).GeneratePDF now1 none none it).1
        = ((pdfServiceAt dir offset).GeneratePDF now2 none none it).1) := by
  refine ⟨rfl, not_congr (filename_eq_iff s now1 now2 it), ?_⟩
  intro h
  have hf : (pdfServiceAt dir offset).filename now1 it
      = (pdfServiceAt dir offset).filename now2 it :=
    (filename_eq_iff _ now1 now2 it).2
      (show goFormat offset now1 "20060102_150405" = goFormat offset now2 "20060102_150405"
        from goFormat_same_second offset now1 now2 _ h)
  refine ⟨hf, ?_⟩
  rw [generatePDF_ok, generatePDF_ok, hf]

/-- C14 amended, at renders of one itinerary at 12:00:00.1 and 12:00:01: the timestamps
`20240101_120000` and `20240101_120001` differ, and so do the file names; and at renders at
12:00:00.1 and 12:00:00.9, which share a second and a file name. -/
theorem generatePDF_file_name_witness :
    goFormat 0 noonEarly "20060102_150405" = "20240101_120000" ∧
    goFormat 0 noonNext "20060102_150405" = "20240101_120001" ∧
    (pdfServiceAt "./output" 0).filename noonEarly (itineraryWithID sampleID)
      ≠ (pdfServiceAt "./output" 0).filename noonNext (itineraryWithID sampleID) ∧
    noonEarly.unixNano / 1000000000 = noonLate.unixNano / 1000000000 ∧
    (pdfServiceAt "./output" 0).filename noonEarly (itineraryWithID sampleID)
      = (pdfServiceAt "./output" 0).filename noonLate (itineraryWithID sampleID) :=
  ⟨by decide, by decide,
    (generatePDF_file_name (pdfServiceAt "./output" 0) "./output" 0 noonEarly noonNext
      (itineraryWithID sampleID)).2.1.2 (by decide),
    by decide,
    ((generatePDF_file_name (pdfServiceAt "./output" 0) "./output" 0 noonEarly noonLate
      (itineraryWithID sampleID)).2.2 (by decide)).1⟩

/-! ## The file name the handlers report -/

/-- Whatever the directory, a generated file name of a 36-character ID and a 15-character
timestamp has 66 characters: the last 48 characters of a path that ends with it exist, and
are not the file name. -/
theorem reportedFilename_of_generated (s : PDFService) (now : Time) (it : Itinerary)
    (dir : String) (hid : it.ID.length = 36)
    (hts : (s.Format now "20060102_150405").length = 15) :
    (s.filename now it).length = 66 ∧
    ∃ t, RouteController.reportedFilename (dir ++ s.filename now it) = some t ∧
      t.length = 48 ∧ t ≠ s.filename now it := by
  have hlen : (s.filename now it).length = 66 := by
    unfold PDFService.filename
    simp only [String.length_append, hid, hts]
    rfl
  refine ⟨hlen, ?_⟩
  have hp : (dir ++ s.filename now it).length = dir.length + 66 := by
    rw [String.length_append, hlen]
  have h48 : ¬ (dir ++ s.filename now it).length < 48 := by omega
  refine ⟨_, if_neg h48, ?_, ?_⟩
  · show (List.drop _ _).length = 48
    rw [List.length_drop]
    have : (dir ++ s.filename now it).data.length = dir.length + 66 := hp
    omega
  · intro h
    have h2 := congrArg String.length h
    rw [hlen] at h2
    have h3 : (List.drop ((dir ++ s.filename now it).length - 48)
        (dir ++ s.filename now it).data).length = 66 := h2
    rw [List.length_drop] at h3
    have : (dir ++ s.filename now it).data.length = dir.length + 66 := hp
    omega

/-- C16, the failing input: for the itinerary with the 36-character ID
`123e4567-e89b-12d3-a456-426614174000`, rendered at 2024-01-01T12:00:00.1Z into the default
directory `./output`, `GeneratePDF` returns a path of 73 characters whose base name
`itinerary_<ID>_20240101_120000.pdf` has 66 characters; the handlers report its last 48
characters, `-e89b-12d3-a456-426614174000_20240101_120000.pdf`, which is not the base name
that the comment in the handler equates it with. -/
theorem reportedFilename_is_not_base_name :
    sampleID.length = 36 ∧
    ((pdfServiceAt "./output" 0).GeneratePDF noonEarly none none (itineraryWithID sampleID)).1
      = .ok "output/itinerary_123e4567-e89b-12d3-a456-426614174000_20240101_120000.pdf" ∧
    ("output/itinerary_123e4567-e89b-12d3-a456-426614174000_20240101_120000.pdf").length
      = 73 ∧
    pathBase "output/itinerary_123e4567-e89b-12d3-a456-426614174000_20240101_120000.pdf"
      = "itinerary_123e4567-e89b-12d3-a456-426614174000_20240101_120000.pdf" ∧
    RouteController.reportedFilename
        "output/itinerary_123e4567-e89b-12d3-a456-426614174000_20240101_120000.pdf"
      = some "-e89b-12d3-a456-426614174000_20240101_120000.pdf" ∧
    RouteController.reportedFilename
        "output/itinerary_123e4567-e89b-12d3-a456-426614174000_20240101_120000.pdf"
      ≠ some (pathBase
        "output/itinerary_123e4567-e89b-12d3-a456-426614174000_20240101_120000.pdf") := by
  decide

end ItineraryApi
